import Mathlib

/-!
# Verification of the arena-brawler simulation core

Shallow embedding of the deterministic simulation core of the arena-brawler
repository (src/js): 2D vectors, the Player physics model, the Arena boundary
and shrink model, the Physics collision routines and the RoundManager state
machine, together with proofs of the specified properties.

JavaScript numbers are modelled as real numbers (ℝ).  JavaScript booleans are
modelled as `Bool`.  Mutation is modelled by state-passing: a method that
mutates `this` becomes a function returning the updated structure.  Callback
invocations (`onRoundEnd`, ...) are modelled as emitted events collected in a
list.  Rendering-only state (colors, particle trails, squash/stretch, glow,
ghost timestamps) is omitted: the spec scopes it out and no operation of the
simulation core reads it back.
-/

noncomputable section
open scoped Classical

namespace Brawler

/-! ## Configuration constants (src/js/config.js) -/

namespace CONFIG

def PLAYER_RADIUS : ℝ := 25
def PLAYER_MASS : ℝ := 1
def PLAYER_MAX_SPEED : ℝ := 6
def PLAYER_ACCELERATION : ℝ := 0.8
def PLAYER_FRICTION : ℝ := 0.92
def PLAYER_BOUNCE_FACTOR : ℝ := 0.8
def DASH_SPEED_MULTIPLIER : ℝ := 3
def DASH_DURATION : ℝ := 150
def DASH_COOLDOWN : ℝ := 1500
def COLLISION_PUSH_FORCE : ℝ := 1.5
def COLLISION_DASH_PUSH_MULTIPLIER : ℝ := 2
def ROUNDS_WINS_NEEDED : ℕ := 3
def ROUNDS_COUNTDOWN_DURATION : ℤ := 3
def ROUNDS_ROUND_END_DELAY : ℝ := 2000
def ROUNDS_MATCH_END_DELAY : ℝ := 3000
def ARENA_PADDING : ℝ := 50
def ESCALATION_BASE_DAMAGE_MULTIPLIER : ℝ := 1.0
def ESCALATION_MAX_DAMAGE_MULTIPLIER : ℝ := 2.5
def ESCALATION_DAMAGE_RAMP_START : ℝ := 8000
def ESCALATION_DAMAGE_RAMP_DURATION : ℝ := 10000
def ESCALATION_INSTABILITY_START : ℝ := 12000
def ESCALATION_INSTABILITY_MAX_FORCE : ℝ := 0.3
def ESCALATION_FINAL_COUNTDOWN_START : ℝ := 20000
def ESCALATION_FINAL_COUNTDOWN_DURATION : ℝ := 5000

end CONFIG

/-! ## Vector2 (src/js/utils/Vector2.js)

All mutating chain-style methods are modelled as functions returning the new
vector value.  `clone` is the identity under value semantics and is not
modelled separately. -/

structure Vec2 where
  x : ℝ
  y : ℝ

def Vec2.zero : Vec2 := ⟨0, 0⟩

def Vec2.add (v w : Vec2) : Vec2 := ⟨v.x + w.x, v.y + w.y⟩

def Vec2.sub (v w : Vec2) : Vec2 := ⟨v.x - w.x, v.y - w.y⟩

def Vec2.multiply (v : Vec2) (scalar : ℝ) : Vec2 := ⟨v.x * scalar, v.y * scalar⟩

def Vec2.magnitudeSquared (v : Vec2) : ℝ := v.x * v.x + v.y * v.y

def Vec2.magnitude (v : Vec2) : ℝ := Real.sqrt (v.x * v.x + v.y * v.y)

/-- `normalize()`: divide by the magnitude when it is positive, no-op on the
zero vector. -/
def Vec2.normalize (v : Vec2) : Vec2 :=
  let mag := v.magnitude
  if 0 < mag then ⟨v.x / mag, v.y / mag⟩ else v

/-- `limit(max)`: clamp the magnitude to `max` (the source compares squared
magnitudes, then normalizes and rescales). -/
def Vec2.limit (v : Vec2) (max : ℝ) : Vec2 :=
  if v.magnitudeSquared > max * max then (v.normalize).multiply max else v

def Vec2.dot (v w : Vec2) : ℝ := v.x * w.x + v.y * w.y

def Vec2.distanceTo (v w : Vec2) : ℝ :=
  Real.sqrt ((v.x - w.x) * (v.x - w.x) + (v.y - w.y) * (v.y - w.y))

/-! ## Player (src/js/entities/Player.js)

Fields kept are exactly the simulation-relevant ones.  Omitted fields are
rendering-only and written but never read by the core: `color`,
`secondaryColor`, `darkColor`, `hitFlash`, `pulsePhase`, `trailPositions`,
`maxTrailLength`, `squashStretch`, `targetSquash`, `nearEdge`,
`edgeWarningIntensity`, `eliminationTime` (wall-clock ghost-display stamp),
`originalSpawnPosition`.  The per-instance constant `maxIdleTime = 5000` is
inlined as a literal.  `distanceFromCenter` is a field attached by
`Game.fixedUpdate`; it starts unset in the constructor, which `Option` models
(`none` = JS `undefined`). -/

structure Player where
  id : ℕ
  position : Vec2
  velocity : Vec2
  radius : ℝ
  mass : ℝ
  isAlive : Bool
  isDashing : Bool
  dashTimeRemaining : ℝ
  dashCooldown : ℝ
  dashDirection : Vec2
  lastMoveDirection : Vec2
  idleTime : ℝ
  isIdle : Bool
  idleWarningShown : Bool
  wins : ℕ
  spawnPosition : Vec2
  distanceFromCenter : Option ℝ

/-- The `Player` constructor (rendering-only fields omitted). -/
def Player.init (id : ℕ) (x y : ℝ) : Player :=
  { id := id
    position := ⟨x, y⟩
    velocity := Vec2.zero
    radius := CONFIG.PLAYER_RADIUS
    mass := CONFIG.PLAYER_MASS
    isAlive := true
    isDashing := false
    dashTimeRemaining := 0
    dashCooldown := 0
    dashDirection := Vec2.zero
    lastMoveDirection := ⟨1, 0⟩
    idleTime := 0
    isIdle := false
    idleWarningShown := false
    wins := 0
    spawnPosition := ⟨x, y⟩
    distanceFromCenter := none }

/-- `reset()`: reinitialize for a new round, preserving `wins`,
`spawnPosition` and the constructor constants. -/
def Player.reset (p : Player) : Player :=
  { p with
    position := p.spawnPosition
    velocity := Vec2.zero
    isAlive := true
    isDashing := false
    dashTimeRemaining := 0
    dashCooldown := 0
    idleTime := 0
    isIdle := false
    idleWarningShown := false }

def Player.setSpawnPosition (p : Player) (x y : ℝ) : Player :=
  { p with spawnPosition := ⟨x, y⟩ }

def Player.canDash (p : Player) : Prop :=
  p.isDashing = false ∧ p.dashCooldown ≤ 0

/-- `startDash(direction, speedMultiplier)`: unconditional — the cooldown
guard lives at the call site (`handleInput`). -/
def Player.startDash (p : Player) (direction : Vec2) (speedMultiplier : ℝ) : Player :=
  let dir := direction.normalize
  { p with
    isDashing := true
    dashTimeRemaining := CONFIG.DASH_DURATION
    dashCooldown := CONFIG.DASH_COOLDOWN
    dashDirection := dir
    lastMoveDirection := dir
    velocity := dir.multiply
      (CONFIG.PLAYER_MAX_SPEED * CONFIG.DASH_SPEED_MULTIPLIER * speedMultiplier) }

/-- Per-player input for one tick: a movement vector and a dash request. -/
structure PInput where
  movement : Vec2
  dash : Bool

/-- Result record of `handleInput` (the optional `direction` payload is
redundant with `movement` and not modelled). -/
structure HandleInputResult where
  dashStarted : Bool

/-- `handleInput(input, deltaTime, speedMultiplier)`. -/
def Player.handleInput (p : Player) (input : PInput) (deltaTime : ℝ)
    (speedMultiplier : ℝ) : Player × HandleInputResult :=
  if p.isAlive = false then (p, ⟨false⟩) else
  -- update dash cooldown
  let p := if p.dashCooldown > 0 then { p with dashCooldown := p.dashCooldown - deltaTime } else p
  -- update dash state
  let p :=
    if p.isDashing then
      let p := { p with dashTimeRemaining := p.dashTimeRemaining - deltaTime }
      if p.dashTimeRemaining ≤ 0 then { p with isDashing := false } else p
    else p
  -- try to dash
  if input.dash = true ∧ p.canDash ∧ input.movement.magnitude > 0 then
    (p.startDash input.movement speedMultiplier, ⟨true⟩)
  else
    -- apply movement acceleration (skipped during dash)
    let p :=
      if p.isDashing = false ∧ input.movement.magnitude > 0 then
        { p with
          velocity := p.velocity.add
            (input.movement.multiply (CONFIG.PLAYER_ACCELERATION * speedMultiplier))
          lastMoveDirection := input.movement.normalize }
      else p
    (p, ⟨false⟩)

/-- The friction factor computed inside `Player.update`:
`baseFriction * frictionMultiplier` clamped into `[0.85, 0.995]` by
`Math.min(0.995, Math.max(0.85, friction))`. -/
def Player.clampedFriction (isDashing : Bool) (frictionMultiplier : ℝ) : ℝ :=
  let baseFriction : ℝ := if isDashing then 0.98 else CONFIG.PLAYER_FRICTION
  let friction := baseFriction * frictionMultiplier
  min 0.995 (max 0.85 friction)

/-- `update(deltaTime, arena, frictionMultiplier)`.  The trail update and
`updateVisualEffects` write only omitted rendering fields (the `arena`
argument is read only there) and are dropped. -/
def Player.update (p : Player) (deltaTime : ℝ) (frictionMultiplier : ℝ) : Player :=
  if p.isAlive = false then p else
  -- track idle time
  let p :=
    if p.velocity.magnitude < 0.5 then
      let p := { p with idleTime := p.idleTime + deltaTime }
      if p.idleTime ≥ 5000 then { p with isIdle := true } else p
    else
      { p with idleTime := 0, isIdle := false, idleWarningShown := false }
  -- apply friction (less during dash) with modifier support, clamped
  let p := { p with
    velocity := p.velocity.multiply (Player.clampedFriction p.isDashing frictionMultiplier) }
  -- limit speed (dash-boosted max while dashing)
  let maxSpeed :=
    if p.isDashing then CONFIG.PLAYER_MAX_SPEED * CONFIG.DASH_SPEED_MULTIPLIER
    else CONFIG.PLAYER_MAX_SPEED
  let p := { p with velocity := p.velocity.limit maxSpeed }
  -- integrate position
  { p with position := p.position.add p.velocity }

/-- `eliminate()`: zero the velocity and clear `isAlive` (the wall-clock
ghost timestamp is display-only and omitted). -/
def Player.eliminate (p : Player) : Player :=
  { p with isAlive := false, velocity := Vec2.zero }

def Player.addWin (p : Player) : Player := { p with wins := p.wins + 1 }

def Player.hasWonMatch (p : Player) : Prop := CONFIG.ROUNDS_WINS_NEEDED ≤ p.wins

/-! ## Arena (src/js/entities/Arena.js)

Omitted fields are animation-only and never read by the simulation: `time`,
`pulsePhase`, `borderGlow`, `targetBorderGlow`, `shrinkWarningShown`.  The
per-instance constants set in the constructor (`shrinkStartTime`,
`minSizePercent`, ...) are kept as fields, initialized by `Arena.init` and
never written by any other operation, exactly as in the source.  The render
methods are out of scope. -/

structure Bounds where
  left : ℝ
  right : ℝ
  top : ℝ
  bottom : ℝ

structure Arena where
  bounds : Bounds
  width : ℝ
  height : ℝ
  centerX : ℝ
  centerY : ℝ
  originalBounds : Bounds
  shrinkStartTime : ℝ
  shrinkDuration : ℝ
  minSizePercent : ℝ
  roundTime : ℝ
  isShrinking : Bool
  arenaScale : ℝ
  shrinkSpeedMultiplier : ℝ
  suddenDeathActive : Bool
  suddenDeathStartTime : ℝ
  suddenDeathShrinkSpeed : ℝ
  suddenDeathForce : ℝ
  centrifugeMode : Bool
  centrifugeRadius : ℝ
  centrifugeRotation : ℝ
  centrifugeSpeed : ℝ
  centrifugeMaxSpeed : ℝ
  centrifugeForce : ℝ
  centrifugeMaxForce : ℝ

/-- The `Arena` constructor at canvas dimensions `(canvasWidth, canvasHeight)`. -/
def Arena.init (canvasWidth canvasHeight : ℝ) : Arena :=
  let bounds : Bounds :=
    { left := CONFIG.ARENA_PADDING
      right := canvasWidth - CONFIG.ARENA_PADDING
      top := CONFIG.ARENA_PADDING
      bottom := canvasHeight - CONFIG.ARENA_PADDING }
  let width := bounds.right - bounds.left
  let height := bounds.bottom - bounds.top
  { bounds := bounds
    width := width
    height := height
    centerX := bounds.left + width / 2
    centerY := bounds.top + height / 2
    originalBounds := bounds
    shrinkStartTime := 8000
    shrinkDuration := 12000
    minSizePercent := 0.35
    roundTime := 0
    isShrinking := false
    arenaScale := 1.0
    shrinkSpeedMultiplier := 1.0
    suddenDeathActive := false
    suddenDeathStartTime := 12000
    suddenDeathShrinkSpeed := 5
    suddenDeathForce := 0.15
    centrifugeMode := false
    centrifugeRadius := 0
    centrifugeRotation := 0
    centrifugeSpeed := 0
    centrifugeMaxSpeed := 0.004
    centrifugeForce := 0
    centrifugeMaxForce := 0.35 }

/-- `applyScale()`: recompute bounds from `originalBounds` and `arenaScale`,
keeping the center. -/
def Arena.applyScale (a : Arena) : Arena :=
  let origWidth := a.originalBounds.right - a.originalBounds.left
  let origHeight := a.originalBounds.bottom - a.originalBounds.top
  let newWidth := origWidth * a.arenaScale
  let newHeight := origHeight * a.arenaScale
  { a with
    bounds :=
      { left := a.centerX - newWidth / 2
        right := a.centerX + newWidth / 2
        top := a.centerY - newHeight / 2
        bottom := a.centerY + newHeight / 2 }
    width := newWidth
    height := newHeight }

def Arena.setScale (a : Arena) (scale : ℝ) : Arena :=
  ({ a with arenaScale := scale } : Arena).applyScale

def Arena.setShrinkSpeed (a : Arena) (multiplier : ℝ) : Arena :=
  { a with shrinkSpeedMultiplier := multiplier }

/-- The predefined spawn points (order: left, right, top, bottom).
`getSpawnPositions(playerCount)` returns the first `playerCount` of them;
the game clamps the player count to `2..4`, matching the list length. -/
def Arena.spawnPoints (a : Arena) : List Vec2 :=
  [⟨a.bounds.left + 80, a.centerY⟩, ⟨a.bounds.right - 80, a.centerY⟩,
   ⟨a.centerX, a.bounds.top + 80⟩, ⟨a.centerX, a.bounds.bottom - 80⟩]

def Arena.getSpawnPositions (a : Arena) (playerCount : ℕ) : List Vec2 :=
  a.spawnPoints.take playerCount

/-- `isOutOfCentrifuge(x, y, radius)`: distance from center plus radius
exceeds the circle radius (false when centrifuge mode is off). -/
def Arena.isOutOfCentrifuge (a : Arena) (x y radius : ℝ) : Prop :=
  a.centrifugeMode = true ∧
    Real.sqrt ((x - a.centerX) * (x - a.centerX) + (y - a.centerY) * (y - a.centerY))
      + radius > a.centrifugeRadius

/-- `isEliminatedCentrifuge(x, y, radius)`: distance from center minus radius
exceeds the circle radius (false when centrifuge mode is off). -/
def Arena.isEliminatedCentrifuge (a : Arena) (x y radius : ℝ) : Prop :=
  a.centrifugeMode = true ∧
    Real.sqrt ((x - a.centerX) * (x - a.centerX) + (y - a.centerY) * (y - a.centerY))
      - radius > a.centrifugeRadius

/-- `isOutOfBounds(x, y, radius)`: dispatches to the centrifuge test in
centrifuge mode, else true when the position+radius exceeds any edge. -/
def Arena.isOutOfBounds (a : Arena) (x y radius : ℝ) : Prop :=
  if a.centrifugeMode then a.isOutOfCentrifuge x y radius
  else
    x - radius < a.bounds.left ∨ x + radius > a.bounds.right ∨
    y - radius < a.bounds.top ∨ y + radius > a.bounds.bottom

/-- `isEliminated(x, y, radius)`: dispatches to the centrifuge test in
centrifuge mode, else true only when completely past one edge. -/
def Arena.isEliminated (a : Arena) (x y radius : ℝ) : Prop :=
  if a.centrifugeMode then a.isEliminatedCentrifuge x y radius
  else
    x + radius < a.bounds.left ∨ x - radius > a.bounds.right ∨
    y + radius < a.bounds.top ∨ y - radius > a.bounds.bottom

def Arena.getDistanceToBoundary (a : Arena) (x y : ℝ) : ℝ :=
  min (min (x - a.bounds.left) (a.bounds.right - x))
    (min (y - a.bounds.top) (a.bounds.bottom - y))

/-- `reset()`: restore original bounds, clear the round-scoped flags
(shrink, sudden death, centrifuge) and the round-scoped modifiers. -/
def Arena.reset (a : Arena) : Arena :=
  let bounds := a.originalBounds
  let width := bounds.right - bounds.left
  let height := bounds.bottom - bounds.top
  { a with
    bounds := bounds
    width := width
    height := height
    centerX := bounds.left + width / 2
    centerY := bounds.top + height / 2
    roundTime := 0
    isShrinking := false
    suddenDeathActive := false
    centrifugeMode := false
    centrifugeRotation := 0
    centrifugeSpeed := 0
    centrifugeForce := 0
    arenaScale := 1.0
    shrinkSpeedMultiplier := 1.0 }

/-- `getShrinkProgress()`: 0 before `shrinkStartTime`, then linear progress
over `shrinkDuration` clamped to 1. -/
def Arena.getShrinkProgress (a : Arena) : ℝ :=
  if a.roundTime < a.shrinkStartTime then 0
  else min 1 ((a.roundTime - a.shrinkStartTime) / a.shrinkDuration)

/-- `setAliveCount(count)`: latch sudden death once at most 2 players remain
and the time threshold is reached. -/
def Arena.setAliveCount (a : Arena) (count : ℕ) : Arena :=
  if count ≤ 2 ∧ a.roundTime ≥ a.suddenDeathStartTime ∧ a.suddenDeathActive = false then
    { a with suddenDeathActive := true }
  else a

/-- `activateCentrifuge()`. -/
def Arena.activateCentrifuge (a : Arena) : Arena :=
  { a with
    centrifugeMode := true
    centrifugeRadius := min a.width a.height * 0.45
    centrifugeRotation := 0
    centrifugeSpeed := 0
    centrifugeForce := 0 }

/-- `getCentrifugeForce(x, y)`: outward push, zero when inactive or within
10 units of the center. -/
def Arena.getCentrifugeForce (a : Arena) (x y : ℝ) : Vec2 :=
  if a.centrifugeMode = false ∨ a.centrifugeForce = 0 then Vec2.zero else
  let dx := x - a.centerX
  let dy := y - a.centerY
  let dist := Real.sqrt (dx * dx + dy * dy)
  if dist < 10 then Vec2.zero else
  let forceMagnitude := a.centrifugeForce * (dist / 100)
  ⟨dx / dist * forceMagnitude, dy / dist * forceMagnitude⟩

/-- `getSuddenDeathForce(x, y)`: pull toward the center, magnitude scaling
with distance (capped multiplier), zero when inactive or within 1 unit. -/
def Arena.getSuddenDeathForce (a : Arena) (x y : ℝ) : Vec2 :=
  if a.suddenDeathActive = false then Vec2.zero else
  let dx := a.centerX - x
  let dy := a.centerY - y
  let dist := Real.sqrt (dx * dx + dy * dy)
  if dist < 1 then Vec2.zero else
  let forceMultiplier := min (dist / 100) 2 * a.suddenDeathForce
  ⟨dx / dist * forceMultiplier, dy / dist * forceMultiplier⟩

/-- `update(deltaTime, isPlaying)`.  The animation-state updates (`time`,
`pulsePhase`, border glow) touch only omitted fields and are dropped. -/
def Arena.update (a : Arena) (deltaTime : ℝ) (isPlaying : Bool) : Arena :=
  -- centrifuge ramp-up and slow shrink
  let a :=
    if a.centrifugeMode = true ∧ isPlaying = true then
      { a with
        centrifugeSpeed := min (a.centrifugeSpeed + 0.000005 * deltaTime) a.centrifugeMaxSpeed
        centrifugeRotation := a.centrifugeRotation +
          min (a.centrifugeSpeed + 0.000005 * deltaTime) a.centrifugeMaxSpeed * deltaTime
        centrifugeForce := min (a.centrifugeForce + 0.0001 * deltaTime) a.centrifugeMaxForce
        centrifugeRadius := max 80 (a.centrifugeRadius - 0.015 * deltaTime) }
    else a
  -- round time and shrinking, only when playing
  if isPlaying = true then
    let a := { a with roundTime := a.roundTime + deltaTime }
    let shrinkMultiplier :=
      if a.suddenDeathActive then a.suddenDeathShrinkSpeed else a.shrinkSpeedMultiplier
    if a.roundTime ≥ a.shrinkStartTime then
      let a := { a with isShrinking := true }
      let baseProgress := a.getShrinkProgress
      let progress := min 1 (baseProgress * shrinkMultiplier)
      let scale := 1 - (1 - a.minSizePercent) * progress
      let finalScale := scale * a.arenaScale
      let newWidth := (a.originalBounds.right - a.originalBounds.left) * finalScale
      let newHeight := (a.originalBounds.bottom - a.originalBounds.top) * finalScale
      { a with
        bounds :=
          { left := a.centerX - newWidth / 2
            right := a.centerX + newWidth / 2
            top := a.centerY - newHeight / 2
            bottom := a.centerY + newHeight / 2 }
        width := newWidth
        height := newHeight }
    else a
  else a

/-! ## Physics (src/js/core/Physics.js) -/

namespace Physics

/-- `checkCircleCollision(p1, p2)`: centers closer than the radius sum. -/
def checkCircleCollision (p1 p2 : Player) : Prop :=
  Real.sqrt ((p2.position.x - p1.position.x) * (p2.position.x - p1.position.x) +
      (p2.position.y - p1.position.y) * (p2.position.y - p1.position.y))
    < p1.radius + p2.radius

/-- `resolveCollision(p1, p2, damageMultiplier, bounceMultiplier)`: separate
overlapping players and apply an impulse along the collision normal.  The
final high-damage drag branch multiplies the velocities by `1.0` and is a
no-op. -/
def resolveCollision (p1 p2 : Player) (damageMultiplier bounceMultiplier : ℝ) :
    Player × Player :=
  if p1.isAlive = false ∨ p2.isAlive = false then (p1, p2) else
  let dx := p2.position.x - p1.position.x
  let dy := p2.position.y - p1.position.y
  let distance := Real.sqrt (dx * dx + dy * dy)
  let minDistance := p1.radius + p2.radius
  if distance ≥ minDistance ∨ distance = 0 then (p1, p2) else
  let nx := dx / distance
  let ny := dy / distance
  let overlap := minDistance - distance
  let separationX := overlap / 2 * nx
  let separationY := overlap / 2 * ny
  let p1 := { p1 with position := ⟨p1.position.x - separationX, p1.position.y - separationY⟩ }
  let p2 := { p2 with position := ⟨p2.position.x + separationX, p2.position.y + separationY⟩ }
  let dvx := p1.velocity.x - p2.velocity.x
  let dvy := p1.velocity.y - p2.velocity.y
  let dvn := dvx * nx + dvy * ny
  if dvn > 0 then (p1, p2) else
  let restitution := CONFIG.PLAYER_BOUNCE_FACTOR * bounceMultiplier
  let totalMass := p1.mass + p2.mass
  let impulse0 := -(1 + restitution) * dvn / totalMass
  let pushMultiplier0 := CONFIG.COLLISION_PUSH_FORCE * damageMultiplier
  let pushMultiplier :=
    if p1.isDashing = true ∨ p2.isDashing = true then
      pushMultiplier0 * CONFIG.COLLISION_DASH_PUSH_MULTIPLIER
    else pushMultiplier0
  let impulse := impulse0 * pushMultiplier
  let impulseX := impulse * nx
  let impulseY := impulse * ny
  ({ p1 with velocity :=
      ⟨p1.velocity.x + impulseX * p2.mass, p1.velocity.y + impulseY * p2.mass⟩ },
   { p2 with velocity :=
      ⟨p2.velocity.x - impulseX * p1.mass, p2.velocity.y - impulseY * p1.mass⟩ })

/-- `checkArenaBoundary(player, arena)`: true (eliminate) when an alive
player is completely out of bounds. -/
def checkArenaBoundary (player : Player) (arena : Arena) : Prop :=
  player.isAlive = true ∧
    arena.isEliminated player.position.x player.position.y player.radius

end Physics

/-! ## RoundManager (src/js/core/RoundManager.js)

The callback fields (`onRoundStart`, `onRoundEnd`, ...) are modelled as
events emitted by each update, collected in a list in invocation order.  The
event vocabulary also contains `centrifugeStart`, because `Game`
(src/js/core/Game.js, `setupRoundCallbacks`) assigns an `onCentrifugeStart`
handler on the round manager object.  `Math.random()` inside
`getRandomModifier` is modelled by passing the chosen modifier in as an
oracle argument.  Players are identified by their index in the players
list; object mutation (`eliminate`, `addWin`) becomes list update and
`roundWinner` stores the winning index. -/

inductive RState where
  | waiting
  | countdown
  | playing
  | roundEnd
  | matchEnd
deriving DecidableEq

/-- The modifier table keys of `CONFIG.MODIFIERS` (the numeric payloads are
read by `Game`, not by the round manager). -/
inductive Modifier where
  | NONE
  | SLIPPERY
  | HEAVY_HITS
  | TINY_ARENA
  | FAST_SHRINK
  | TURBO
  | BOUNCY
deriving DecidableEq

inductive Reason where
  | knockout
  | timeout
deriving DecidableEq

/-- The discrete notifications fired by the round manager.  `centrifugeStart`
is the event the `onCentrifugeStart` handler registered by `Game` would
receive. -/
inductive REvent where
  | countdownTick (value : ℤ)
  | roundStart (round : ℕ) (modifier : Modifier)
  | modifierAnnounce (modifier : Modifier)
  | escalation
  | finalCountdown (secondsLeft : ℤ)
  | roundEnd (winner : Option ℕ) (round : ℕ) (reason : Reason)
  | matchEnd (winner : ℕ)
  | centrifugeStart
deriving DecidableEq

structure RoundManager where
  currentRound : ℕ
  state : RState
  countdownValue : ℤ
  countdownTimer : ℝ
  roundEndTimer : ℝ
  winner : Option ℕ
  roundWinner : Option ℕ
  roundTime : ℝ
  currentModifier : Modifier
  damageMultiplier : ℝ
  instabilityActive : Bool
  finalCountdownActive : Bool
  finalCountdownTime : ℝ

/-- The `RoundManager` constructor (`currentModifier = null` in the source is
only compared against the Standard name before announcing, so `NONE` models
it exactly). -/
def RoundManager.init : RoundManager :=
  { currentRound := 0
    state := RState.waiting
    countdownValue := 0
    countdownTimer := 0
    roundEndTimer := 0
    winner := none
    roundWinner := none
    roundTime := 0
    currentModifier := Modifier.NONE
    damageMultiplier := CONFIG.ESCALATION_BASE_DAMAGE_MULTIPLIER
    instabilityActive := false
    finalCountdownActive := false
    finalCountdownTime := 0 }

/-- Update one list entry in place (models mutating the i-th player object). -/
def listUpd {α : Type} (l : List α) (i : ℕ) (f : α → α) : List α :=
  l.enum.map fun q => if q.1 = i then f q.2 else q.2

/-- The effective distance used by `forceRoundEnd`:
JS `player.distanceFromCenter || 0` maps `undefined` to 0 (and keeps every
other stored value; the stored value 0 also yields 0). -/
def effDist (p : Player) : ℝ := (p.distanceFromCenter).getD 0

/-- One step of the closest-player scan of `forceRoundEnd`: the accumulator
is `none` while `closestDist` is still `Infinity` (every distance beats it),
else the current `(closestPlayer index, closestDist)` pair.  Only alive
players take part, in list order. -/
def closestStep (best : Option (ℕ × ℝ)) (ip : ℕ × Player) : Option (ℕ × ℝ) :=
  if ip.2.isAlive = true then
    match best with
    | none => some (ip.1, effDist ip.2)
    | some (bi, bd) => if effDist ip.2 < bd then some (ip.1, effDist ip.2) else some (bi, bd)
  else best

/-- Index of the alive player with the smallest `distanceFromCenter || 0`
(first one on ties, matching the strict `<` of the source loop). -/
def closestAliveIdx (players : List Player) : Option ℕ :=
  (players.enum.foldl closestStep none).map Prod.fst

/-- `forceRoundEnd(players)`: keep the alive player closest to the center,
eliminate the other alive ones, award the win, end the round with reason
`timeout`. -/
def RoundManager.forceRoundEnd (rm : RoundManager) (players : List Player) :
    RoundManager × List Player × List REvent :=
  let aliveCount := players.countP fun p => p.isAlive
  let winnerIdx : Option ℕ :=
    if aliveCount = 0 then none
    else if aliveCount = 1 then players.findIdx? fun p => p.isAlive
    else closestAliveIdx players
  let players :=
    if 2 ≤ aliveCount then
      players.enum.map fun q =>
        if q.2.isAlive = true ∧ some q.1 ≠ winnerIdx then q.2.eliminate else q.2
    else players
  let players :=
    match winnerIdx with
    | some w => listUpd players w Player.addWin
    | none => players
  ({ rm with
      roundWinner := winnerIdx
      state := RState.roundEnd
      roundEndTimer := CONFIG.ROUNDS_ROUND_END_DELAY },
   players, [REvent.roundEnd winnerIdx rm.currentRound Reason.timeout])

/-- `checkRoundEnd(players)`: when at most one player is alive, end the round
with reason `knockout` (the sole survivor, if any, gains a win). -/
def RoundManager.checkRoundEnd (rm : RoundManager) (players : List Player) :
    RoundManager × List Player × List REvent :=
  let aliveCount := players.countP fun p => p.isAlive
  if aliveCount ≤ 1 then
    let winnerIdx : Option ℕ :=
      if aliveCount = 1 then players.findIdx? fun p => p.isAlive else none
    let players :=
      match winnerIdx with
      | some w => listUpd players w Player.addWin
      | none => players
    ({ rm with
        roundWinner := winnerIdx
        state := RState.roundEnd
        roundEndTimer := CONFIG.ROUNDS_ROUND_END_DELAY },
     players, [REvent.roundEnd winnerIdx rm.currentRound Reason.knockout])
  else (rm, players, [])

/-- `updateDamageMultiplier()`: linear ramp between the two thresholds. -/
def RoundManager.updateDamageMultiplier (rm : RoundManager) : RoundManager :=
  if rm.roundTime < CONFIG.ESCALATION_DAMAGE_RAMP_START then
    { rm with damageMultiplier := CONFIG.ESCALATION_BASE_DAMAGE_MULTIPLIER }
  else
    let progress := min 1 ((rm.roundTime - CONFIG.ESCALATION_DAMAGE_RAMP_START) /
      CONFIG.ESCALATION_DAMAGE_RAMP_DURATION)
    { rm with damageMultiplier := CONFIG.ESCALATION_BASE_DAMAGE_MULTIPLIER +
        (CONFIG.ESCALATION_MAX_DAMAGE_MULTIPLIER - CONFIG.ESCALATION_BASE_DAMAGE_MULTIPLIER)
          * progress }

/-- `getInstabilityForce(x, y, arenaCenter)` (the center argument is unused
in the source body). -/
def RoundManager.getInstabilityForce (rm : RoundManager) (x y : ℝ) : Vec2 :=
  if rm.instabilityActive = false then Vec2.zero else
  let time := rm.roundTime * 0.001
  let intensity := min 1 ((rm.roundTime - CONFIG.ESCALATION_INSTABILITY_START) / 5000)
  let maxForce := CONFIG.ESCALATION_INSTABILITY_MAX_FORCE * intensity
  let forceAngle := Real.sin (time * 2 + x * 0.01) * Real.cos (time * 1.5 + y * 0.01)
    * Real.pi * 2
  let forceMag := (Real.sin (time * 3 + x * 0.02 + y * 0.02) * 0.5 + 0.5) * maxForce
  ⟨Real.cos forceAngle * forceMag, Real.sin forceAngle * forceMag⟩

/-- `updatePlaying(deltaTime, players)`: advance the round time, ramp damage,
latch instability and the final countdown, run the countdown to the forced
round end, else check the normal round end. -/
def RoundManager.updatePlaying (rm : RoundManager) (deltaTime : ℝ) (players : List Player) :
    RoundManager × List Player × List REvent :=
  let rm := { rm with roundTime := rm.roundTime + deltaTime }
  let rm := rm.updateDamageMultiplier
  -- instability activation
  let instLatch : Prop :=
    rm.instabilityActive = false ∧ rm.roundTime ≥ CONFIG.ESCALATION_INSTABILITY_START
  let ev1 : List REvent := if instLatch then [REvent.escalation] else []
  let rm := if instLatch then { rm with instabilityActive := true } else rm
  -- final countdown activation (guaranteed end)
  let fcLatch : Prop :=
    rm.finalCountdownActive = false ∧ rm.roundTime ≥ CONFIG.ESCALATION_FINAL_COUNTDOWN_START
  let rm :=
    if fcLatch then
      { rm with
        finalCountdownActive := true
        finalCountdownTime := CONFIG.ESCALATION_FINAL_COUNTDOWN_DURATION }
    else rm
  let ev2 : List REvent :=
    if fcLatch then [REvent.finalCountdown ⌈rm.finalCountdownTime / 1000⌉] else []
  -- update the running final countdown
  if rm.finalCountdownActive = true then
    let rm := { rm with finalCountdownTime := rm.finalCountdownTime - deltaTime }
    let ev3 : List REvent := [REvent.finalCountdown ⌈rm.finalCountdownTime / 1000⌉]
    if rm.finalCountdownTime ≤ 0 then
      let r := rm.forceRoundEnd players
      (r.1, r.2.1, ev1 ++ ev2 ++ ev3 ++ r.2.2)
    else
      let r := rm.checkRoundEnd players
      (r.1, r.2.1, ev1 ++ ev2 ++ ev3 ++ r.2.2)
  else
    let r := rm.checkRoundEnd players
    (r.1, r.2.1, ev1 ++ ev2 ++ r.2.2)

/-- `startCountdown()`: reset the round-scoped escalation state and pick the
modifier (oracle models `getRandomModifier`; the first round always plays
Standard). -/
def RoundManager.startCountdown (rm : RoundManager) (oracle : Modifier) :
    RoundManager × List REvent :=
  let rm :=
    { rm with
      countdownValue := CONFIG.ROUNDS_COUNTDOWN_DURATION
      countdownTimer := 1000
      state := RState.countdown
      roundWinner := none
      roundTime := 0
      damageMultiplier := CONFIG.ESCALATION_BASE_DAMAGE_MULTIPLIER
      instabilityActive := false
      finalCountdownActive := false
      finalCountdownTime := 0
      currentModifier := if 1 ≤ rm.currentRound then oracle else Modifier.NONE }
  (rm, [REvent.countdownTick rm.countdownValue])

/-- `startMatch()`. -/
def RoundManager.startMatch (rm : RoundManager) (oracle : Modifier) :
    RoundManager × List REvent :=
  ({ rm with currentRound := 0, state := RState.countdown, winner := none } :
    RoundManager).startCountdown oracle

/-- `updateCountdown(deltaTime)`: tick the 1000 ms steps down; on reaching 0
enter `playing`, bump the round number and announce the modifier. -/
def RoundManager.updateCountdown (rm : RoundManager) (deltaTime : ℝ) :
    RoundManager × List REvent :=
  let rm := { rm with countdownTimer := rm.countdownTimer - deltaTime }
  if rm.countdownTimer ≤ 0 then
    let rm := { rm with countdownValue := rm.countdownValue - 1 }
    if rm.countdownValue ≤ 0 then
      let rm := { rm with
        state := RState.playing
        currentRound := rm.currentRound + 1
        roundTime := 0 }
      (rm, [REvent.roundStart rm.currentRound rm.currentModifier] ++
        (if rm.currentModifier ≠ Modifier.NONE then
          [REvent.modifierAnnounce rm.currentModifier] else []) ++
        [REvent.countdownTick 0])
    else
      let rm := { rm with countdownTimer := 1000 }
      (rm, [REvent.countdownTick rm.countdownValue])
  else (rm, [])

/-- `updateRoundEnd(deltaTime, players)`: after the delay, either finish the
match (some player reached the win threshold) or start the next countdown. -/
def RoundManager.updateRoundEnd (rm : RoundManager) (deltaTime : ℝ)
    (players : List Player) (oracle : Modifier) : RoundManager × List REvent :=
  let rm := { rm with roundEndTimer := rm.roundEndTimer - deltaTime }
  if rm.roundEndTimer ≤ (0 : ℝ) then
    match players.findIdx? fun p => decide p.hasWonMatch with
    | some w =>
      ({ rm with
          winner := some w
          state := RState.matchEnd
          roundEndTimer := CONFIG.ROUNDS_MATCH_END_DELAY },
       [REvent.matchEnd w])
    | none => rm.startCountdown oracle
  else (rm, [])

/-- `update(deltaTime, players)`: dispatch on the current state (`waiting`
and `matchEnd` do nothing). -/
def RoundManager.update (rm : RoundManager) (deltaTime : ℝ) (players : List Player)
    (oracle : Modifier) : RoundManager × List Player × List REvent :=
  match rm.state with
  | RState.countdown =>
    let r := rm.updateCountdown deltaTime
    (r.1, players, r.2)
  | RState.playing => rm.updatePlaying deltaTime players
  | RState.roundEnd =>
    let r := rm.updateRoundEnd deltaTime players oracle
    (r.1, players, r.2)
  | _ => (rm, players, [])

def RoundManager.isPlaying (rm : RoundManager) : Bool := rm.state = RState.playing

/-! ## Game state and the per-tick operations (src/js/core/Game.js)

`Game.fixedUpdate` applies a fixed sequence of operations to the shared
state (round manager, arena, players) each tick; `resetForRound` runs
between rounds and the round-start callback applies the arena modifiers.
Each such operation is modelled as one `GOp`; an execution is any list of
`GOp`s, a superset of the sequences `Game` actually runs, so invariants
proved over all `GOp` lists hold for the real tick loop.  UI, particle and
screen-effect calls are display-only and omitted. -/

structure GState where
  rm : RoundManager
  arena : Arena
  players : List Player

inductive GOp where
  | rmUpdate (deltaTime : ℝ) (oracle : Modifier)
  | arenaUpdate (deltaTime : ℝ)
  | resetRound
  | modifierScale (scale : ℝ)
  | modifierShrink (speed : ℝ)
  | handleInput (i : ℕ) (input : PInput) (deltaTime speedMod : ℝ)
  | playerUpdate (i : ℕ) (deltaTime frictionMod : ℝ)
  | setDistance (i : ℕ)
  | centrifugeForce (i : ℕ)
  | suddenDeathForce (i : ℕ)
  | instabilityForce (i : ℕ)
  | idlePenalty (i : ℕ)
  | setAliveCnt
  | collide (i j : ℕ) (pushMod bounceMod : ℝ)
  | boundaryCheck (i : ℕ)

/-- Mutate the i-th player object. -/
def GState.modifyPlayer (s : GState) (i : ℕ) (f : Player → Player) : GState :=
  { s with players := listUpd s.players i f }

/-- `GOp.resetRound` is the only modelled operation that is not part of the
in-round tick work: it is `Game.resetForRound`, which respawns and revives
every player between rounds. -/
def GOp.isReset : GOp → Bool
  | GOp.resetRound => true
  | _ => false

/-- One operation of the `Game` tick loop, following the corresponding
source statements of `Game.fixedUpdate` / `resetForRound` /
`setupRoundCallbacks`. -/
def GState.step (s : GState) (op : GOp) : GState :=
  match op with
  | GOp.rmUpdate deltaTime oracle =>
    -- this.roundManager.update(deltaTime, this.players)
    let r := s.rm.update deltaTime s.players oracle
    { s with rm := r.1, players := r.2.1 }
  | GOp.arenaUpdate deltaTime =>
    -- this.arena.update(deltaTime, this.roundManager.isPlaying())
    { s with arena := s.arena.update deltaTime s.rm.isPlaying }
  | GOp.resetRound =>
    -- resetForRound(): arena.reset(), then respawn + reset every player
    let a := s.arena.reset
    let spawns := a.getSpawnPositions s.players.length
    { s with
      arena := a
      players := s.players.enum.map fun q =>
        ((q.2.setSpawnPosition (spawns.getD q.1 Vec2.zero).x
          (spawns.getD q.1 Vec2.zero).y).reset) }
  | GOp.modifierScale scale =>
    -- onRoundStart handler: this.arena.setScale(modifier.arenaScale)
    { s with arena := s.arena.setScale scale }
  | GOp.modifierShrink speed =>
    -- onRoundStart handler: this.arena.setShrinkSpeed(modifier.shrinkSpeed)
    { s with arena := s.arena.setShrinkSpeed speed }
  | GOp.handleInput i input deltaTime speedMod =>
    s.modifyPlayer i fun p => (p.handleInput input deltaTime speedMod).1
  | GOp.playerUpdate i deltaTime frictionMod =>
    s.modifyPlayer i fun p => p.update deltaTime frictionMod
  | GOp.setDistance i =>
    -- player.distanceFromCenter = Math.sqrt((px-cx)^2 + (py-cy)^2)
    s.modifyPlayer i fun p =>
      { p with distanceFromCenter := some (Real.sqrt
          ((p.position.x - s.arena.centerX) ^ 2 + (p.position.y - s.arena.centerY) ^ 2)) }
  | GOp.centrifugeForce i =>
    s.modifyPlayer i fun p =>
      if p.isAlive = true ∧ s.arena.centrifugeMode = true then
        { p with velocity :=
            p.velocity.add (s.arena.getCentrifugeForce p.position.x p.position.y) }
      else p
  | GOp.suddenDeathForce i =>
    s.modifyPlayer i fun p =>
      if p.isAlive = true ∧ s.arena.suddenDeathActive = true ∧ s.arena.centrifugeMode = false then
        { p with velocity :=
            p.velocity.add (s.arena.getSuddenDeathForce p.position.x p.position.y) }
      else p
  | GOp.instabilityForce i =>
    s.modifyPlayer i fun p =>
      if p.isAlive = true ∧ s.rm.instabilityActive = true then
        { p with velocity :=
            p.velocity.add (s.rm.getInstabilityForce p.position.x p.position.y) }
      else p
  | GOp.idlePenalty i =>
    s.modifyPlayer i fun p =>
      if p.isIdle = true ∧ p.isAlive = true then
        let dirX := p.position.x - s.arena.centerX
        let dirY := p.position.y - s.arena.centerY
        let dist := Real.sqrt (dirX * dirX + dirY * dirY)
        if dist > 1 then
          { p with velocity := ⟨p.velocity.x + dirX / dist * 0.15,
              p.velocity.y + dirY / dist * 0.15⟩ }
        else p
      else p
  | GOp.setAliveCnt =>
    -- this.arena.setAliveCount(this.players.filter(p => p.isAlive).length)
    { s with arena := s.arena.setAliveCount (s.players.countP fun p => p.isAlive) }
  | GOp.collide i j pushMod bounceMod =>
    -- one iteration of processCollisionsWithEffects for the pair i < j
    if i < j then
      match s.players.get? i, s.players.get? j with
      | some p1, some p2 =>
        if p1.isAlive = false ∨ p2.isAlive = false then s
        else if Physics.checkCircleCollision p1 p2 then
          -- damageMultiplier = this.roundManager.damageMultiplier || 1
          let dm := if s.rm.damageMultiplier = 0 then 1 else s.rm.damageMultiplier
          let r := Physics.resolveCollision p1 p2 (dm * pushMod) bounceMod
          { s with players := (s.players.set i r.1).set j r.2 }
        else s
      | _, _ => s
    else s
  | GOp.boundaryCheck i =>
    -- if (Physics.checkArenaBoundary(player, this.arena)) this.onPlayerEliminated(player)
    s.modifyPlayer i fun p =>
      if Physics.checkArenaBoundary p s.arena then p.eliminate else p

/-- Run a sequence of game operations. -/
def GState.run (s : GState) (ops : List GOp) : GState :=
  ops.foldl GState.step s

/-! ## Statement-level predicates -/

/-- Membership of a point in the closed disc of radius `r` around `(x, y)`
(the actor's bounding circle). -/
def inDisc (x y r qx qy : ℝ) : Prop :=
  (qx - x) * (qx - x) + (qy - y) * (qy - y) ≤ r * r

/-- Modelled from the spec's geometric language: the closed region enclosed
by the current boundary — the rectangle `bounds` in rectangular mode, the
disc of radius `centrifugeRadius` around the center in centrifuge mode. -/
def Arena.regionContains (a : Arena) (qx qy : ℝ) : Prop :=
  if a.centrifugeMode then
    Real.sqrt ((qx - a.centerX) * (qx - a.centerX) + (qy - a.centerY) * (qy - a.centerY))
      ≤ a.centrifugeRadius
  else
    a.bounds.left ≤ qx ∧ qx ≤ a.bounds.right ∧ a.bounds.top ≤ qy ∧ qy ≤ a.bounds.bottom

/-- Modelled from the spec's geometric language: the bounding circle is
"partially but not completely outside" the boundary — it has a point inside
the enclosed region and a point outside it. -/
def Arena.crossesBoundary (a : Arena) (x y r : ℝ) : Prop :=
  (∃ qx qy, inDisc x y r qx qy ∧ a.regionContains qx qy) ∧
  (∃ qx qy, inDisc x y r qx qy ∧ ¬ a.regionContains qx qy)

/-- The C9 invariant: every dead player has zero velocity. -/
def DeadFrozen (players : List Player) : Prop :=
  ∀ p ∈ players, p.isAlive = false → p.velocity = Vec2.zero

/-- The in-round arena operations of claim C8: arena updates and the
round-modifier setters (plus the alive-count report, which can latch sudden
death and thereby the 5x shrink speed). -/
inductive AOp where
  | update (deltaTime : ℝ) (isPlaying : Bool)
  | setScale (scale : ℝ)
  | setShrinkSpeed (multiplier : ℝ)
  | setAliveCount (count : ℕ)
  | activateCentrifuge

def Arena.applyOp (a : Arena) : AOp → Arena
  | AOp.update deltaTime isPlaying => a.update deltaTime isPlaying
  | AOp.setScale scale => a.setScale scale
  | AOp.setShrinkSpeed multiplier => a.setShrinkSpeed multiplier
  | AOp.setAliveCount count => a.setAliveCount count
  | AOp.activateCentrifuge => a.activateCentrifuge

def Arena.runOps (a : Arena) (ops : List AOp) : Arena :=
  ops.foldl Arena.applyOp a

/-- Scale settings are nonnegative (every modifier-table arena scale is). -/
def AOp.scaleOK : AOp → Prop
  | AOp.setScale scale => 0 ≤ scale
  | _ => True

/-- The shrink floor of claim C8, together with the standing facts the floor
needs (nonnegative original extents, a sub-1 floor percentage, a nonnegative
scale modifier). -/
def Arena.floorInv (a : Arena) : Prop :=
  0 ≤ a.originalBounds.right - a.originalBounds.left ∧
  0 ≤ a.originalBounds.bottom - a.originalBounds.top ∧
  a.minSizePercent ≤ 1 ∧
  0 ≤ a.arenaScale ∧
  a.minSizePercent * a.arenaScale * (a.originalBounds.right - a.originalBounds.left) ≤ a.width ∧
  a.minSizePercent * a.arenaScale * (a.originalBounds.bottom - a.originalBounds.top) ≤ a.height

/-- Advance the round manager tick by tick over the given deltas, with no
other system touching the players (no collisions, no boundary eliminations).
The modifier oracle is only consulted when a next round's countdown starts,
which is after the window any claim inspects, so it is fixed to `NONE`. -/
def rmRunFrom (s : RoundManager × List Player) (dts : List ℝ) :
    RoundManager × List Player :=
  dts.foldl (fun s dt =>
    let r := s.1.update dt s.2 Modifier.NONE
    (r.1, r.2.1)) s

/-- Invariant of a round still in progress (claim C1): the state is
`playing`, the round number is unchanged, `roundTime` tracks the cumulative
simulated time `R`, the final countdown has not yet latched while
`R < finalCountdownStart`, and once latched its remaining time is positive
and bounded by `finalCountdownStart + finalCountdownDuration - R`. -/
def PlayInv (rm0 rm : RoundManager) (R : ℝ) : Prop :=
  rm.state = RState.playing ∧
  rm.currentRound = rm0.currentRound ∧
  rm.roundTime = R ∧
  (rm.finalCountdownActive = false → R < CONFIG.ESCALATION_FINAL_COUNTDOWN_START) ∧
  (rm.finalCountdownActive = true →
    0 < rm.finalCountdownTime ∧
    rm.finalCountdownTime ≤ CONFIG.ESCALATION_FINAL_COUNTDOWN_START +
      CONFIG.ESCALATION_FINAL_COUNTDOWN_DURATION - R)

/-- The tick `rm.update dt players` force-ends the round (claim C1): the
state becomes `roundEnd`, the alive player nearest the center (earliest on
ties) is the round winner, the round-end event fires with reason `timeout`,
and exactly the winner's index remains alive afterwards. -/
def ForcedEnd (rm : RoundManager) (players : List Player) (dt : ℝ) : Prop :=
  (rm.update dt players Modifier.NONE).1.state = RState.roundEnd ∧
  ∃ w pw, players[w]? = some pw ∧ pw.isAlive = true ∧
    (∀ (i : ℕ) (q : Player), players[i]? = some q → q.isAlive = true →
      effDist pw ≤ effDist q) ∧
    (∀ (i : ℕ) (q : Player), players[i]? = some q → q.isAlive = true → i < w →
      effDist pw < effDist q) ∧
    (rm.update dt players Modifier.NONE).1.roundWinner = some w ∧
    REvent.roundEnd (some w) rm.currentRound Reason.timeout ∈
      (rm.update dt players Modifier.NONE).2.2 ∧
    ∀ (i : ℕ) (q : Player), (rm.update dt players Modifier.NONE).2.1[i]? = some q →
      (q.isAlive = true ↔ i = w)

/-! ## Theorems -/

/-- C7: For every frictionMultiplier value (including extreme or
non-positive values) and every alive actor, the friction factor applied to
the velocity in `Player.update` equals
`clamp(baseFriction * frictionMultiplier, 0.85, 0.995)`, where baseFriction
is the dash friction constant 0.98 while dashing and the configured player
friction otherwise; in particular it always lies in `[0.85, 0.995]`. -/
theorem c7_friction_clamp (p : Player) (deltaTime frictionMultiplier : ℝ) (d : Bool)
    (h : p.isAlive = true) :
    Player.clampedFriction d frictionMultiplier
      = max 0.85 (min 0.995
          ((if d then (0.98 : ℝ) else CONFIG.PLAYER_FRICTION) * frictionMultiplier))
    ∧ (0.85 : ℝ) ≤ Player.clampedFriction d frictionMultiplier
    ∧ Player.clampedFriction d frictionMultiplier ≤ 0.995
    ∧ (p.update deltaTime frictionMultiplier).velocity
      = (p.velocity.multiply (Player.clampedFriction p.isDashing frictionMultiplier)).limit
          (if p.isDashing then CONFIG.PLAYER_MAX_SPEED * CONFIG.DASH_SPEED_MULTIPLIER
           else CONFIG.PLAYER_MAX_SPEED) := by
  refine ⟨?_, ?_, ?_, ?_⟩
  · rw [Player.clampedFriction, min_max_distrib_left]
    congr 1
    exact min_eq_right (by norm_num)
  · exact le_min (by norm_num) (le_max_left _ _)
  · exact min_le_left _ _
  · simp only [Player.update, h]
    split_ifs <;> first | rfl | contradiction

/-- Witness for C7: a freshly constructed player is alive, and the friction
factor at multiplier 1 evaluates to the configured friction 0.92, inside the
clamp range. -/
theorem c7_friction_clamp_witness :
    (Player.init 0 100 200).isAlive = true ∧
    ((0.85 : ℝ) ≤ Player.clampedFriction false 1 ∧
      Player.clampedFriction false 1 ≤ 0.995) ∧
    Player.clampedFriction false 1 = 0.92 :=
  ⟨rfl,
   ⟨(c7_friction_clamp (Player.init 0 100 200) 16 1 false rfl).2.1,
    (c7_friction_clamp (Player.init 0 100 200) 16 1 false rfl).2.2.1⟩,
   by norm_num [Player.clampedFriction, CONFIG.PLAYER_FRICTION]⟩

theorem Arena.update_suddenDeathActive (a : Arena) (deltaTime : ℝ) (isPlaying : Bool) :
    (a.update deltaTime isPlaying).suddenDeathActive = a.suddenDeathActive := by
  simp only [Arena.update]
  split_ifs <;> rfl

/-- C4: `suddenDeathActive` becomes true exactly when the reported alive
count is at most 2 while `roundTime ≥ suddenDeathStartTime`; once true, no
in-round arena operation (update, further `setAliveCount` calls with any
count, the modifier setters, centrifuge activation) clears it — only the
between-rounds `reset` does. -/
theorem c4_sudden_death_latch (a : Arena) (count : ℕ) (deltaTime : ℝ) (isPlaying : Bool)
    (scale multiplier : ℝ) :
    ((a.setAliveCount count).suddenDeathActive = true ↔
      (a.suddenDeathActive = true ∨
        (count ≤ 2 ∧ a.roundTime ≥ a.suddenDeathStartTime)))
    ∧ (a.suddenDeathActive = true →
        (a.update deltaTime isPlaying).suddenDeathActive = true ∧
        (a.setAliveCount count).suddenDeathActive = true ∧
        (a.setScale scale).suddenDeathActive = true ∧
        (a.setShrinkSpeed multiplier).suddenDeathActive = true ∧
        (a.activateCentrifuge).suddenDeathActive = true)
    ∧ (a.reset).suddenDeathActive = false := by
  refine ⟨?_, ?_, rfl⟩
  · simp only [Arena.setAliveCount]
    split_ifs with hc
    · simp only [show ({ a with suddenDeathActive := true } : Arena).suddenDeathActive = true
        from rfl]
      exact iff_of_true trivial (Or.inr ⟨hc.1, hc.2.1⟩)
    · push_neg at hc
      simp only [Bool.not_eq_false] at hc
      constructor
      · exact fun h => Or.inl h
      · rintro (h | ⟨h1, h2⟩)
        · exact h
        · exact hc h1 h2
  · intro h
    refine ⟨?_, ?_, ?_, ?_, ?_⟩
    · rw [Arena.update_suddenDeathActive]; exact h
    · simp only [Arena.setAliveCount]
      split_ifs <;> simp [h]
    · simp only [Arena.setScale, Arena.applyScale]; exact h
    · exact h
    · exact h

/-- Witness for C4: reporting 2 alive players at roundTime 12000 latches
sudden death on a fresh arena; with the flag latched, an arena update keeps
it and only reset clears it. -/
theorem c4_sudden_death_latch_witness :
    ((({ Arena.init 1000 700 with roundTime := (12000 : ℝ) }).setAliveCount 2).suddenDeathActive
        = true)
    ∧ (({ Arena.init 1000 700 with suddenDeathActive := true }).update 16 true).suddenDeathActive
        = true
    ∧ (({ Arena.init 1000 700 with suddenDeathActive := true }).reset).suddenDeathActive
        = false :=
  ⟨(c4_sudden_death_latch { Arena.init 1000 700 with roundTime := (12000 : ℝ) }
      2 16 true 1 1).1.mpr (Or.inr ⟨by norm_num, by norm_num [Arena.init]⟩),
   ((c4_sudden_death_latch { Arena.init 1000 700 with suddenDeathActive := true }
      2 16 true 1 1).2.1 rfl).1,
   (c4_sudden_death_latch { Arena.init 1000 700 with suddenDeathActive := true }
      2 16 true 1 1).2.2⟩

/-- C3: If the round-end check runs while zero players are alive, the round
ends in a draw: state `roundEnd`, `roundWinner = null`, the round-end event
fires with winner null and reason `knockout`, and the players (hence every
wins counter) are untouched. -/
theorem c3_simultaneous_knockout_draw (rm : RoundManager) (players : List Player)
    (h : ∀ p ∈ players, p.isAlive = false) :
    (rm.checkRoundEnd players).1.state = RState.roundEnd
    ∧ (rm.checkRoundEnd players).1.roundWinner = none
    ∧ (rm.checkRoundEnd players).2.2
        = [REvent.roundEnd none rm.currentRound Reason.knockout]
    ∧ (rm.checkRoundEnd players).2.1 = players := by
  have hcount : players.countP (fun p => p.isAlive) = 0 := by
    rw [List.countP_eq_zero]
    intro p hp
    simp [h p hp]
  simp [RoundManager.checkRoundEnd, hcount]

/-- Witness for C3: one freshly eliminated player, a fresh round manager. -/
theorem c3_simultaneous_knockout_draw_witness :
    (∀ p ∈ [(Player.init 0 0 0).eliminate], p.isAlive = false)
    ∧ (RoundManager.init.checkRoundEnd [(Player.init 0 0 0).eliminate]).1.state
        = RState.roundEnd
    ∧ (RoundManager.init.checkRoundEnd [(Player.init 0 0 0).eliminate]).1.roundWinner = none
    ∧ (RoundManager.init.checkRoundEnd [(Player.init 0 0 0).eliminate]).2.2
        = [REvent.roundEnd none RoundManager.init.currentRound Reason.knockout]
    ∧ (RoundManager.init.checkRoundEnd [(Player.init 0 0 0).eliminate]).2.1
        = [(Player.init 0 0 0).eliminate] := by
  have h : ∀ p ∈ [(Player.init 0 0 0).eliminate], p.isAlive = false := by
    intro p hp
    rw [List.mem_singleton] at hp
    subst hp
    rfl
  have r := c3_simultaneous_knockout_draw RoundManager.init [(Player.init 0 0 0).eliminate] h
  exact ⟨h, r.1, r.2.1, r.2.2.1, r.2.2.2⟩

/-- C6 counterexample: with `dashCooldown = 10 > 0`, the `startDash` method
itself still mutates the player (it has no cooldown guard), and a dash
request through `handleInput` with `deltaTime = 16` even starts the dash
(the cooldown is decremented past zero before the guard is checked), so the
dash is reported as started. -/
theorem c6_counterexample :
    ({ Player.init 0 0 0 with dashCooldown := (10 : ℝ) }).dashCooldown > 0
    ∧ (({ Player.init 0 0 0 with dashCooldown := (10 : ℝ) }).startDash ⟨1, 0⟩ 1).isDashing
        = true
    ∧ ({ Player.init 0 0 0 with dashCooldown := (10 : ℝ) }).isDashing = false
    ∧ (({ Player.init 0 0 0 with dashCooldown := (10 : ℝ) }).handleInput
        ⟨⟨1, 0⟩, true⟩ 16 1).2.dashStarted = true := by
  refine ⟨by norm_num, rfl, rfl, ?_⟩
  have hmag : (Vec2.magnitude ⟨1, 0⟩ : ℝ) = 1 := by
    rw [Vec2.magnitude]
    norm_num
  simp only [Player.handleInput, Player.canDash, Player.init]
  norm_num [hmag]

/-- C6 (amended): a dash request is refused while the cooldown is still
positive after the per-tick decrement: `handleInput` reports
`dashStarted = false` and starts no dash (`isDashing` can only carry over an
already-running dash; the dash timer and direction are untouched when not
dashing).  The cooldown itself IS decremented — and `startDash` has no guard
of its own — so the actor's state is not literally unchanged. -/
theorem c6_amended_dash_refused (p : Player) (input : PInput)
    (deltaTime speedMultiplier : ℝ) (halive : p.isAlive = true) (hdt : 0 ≤ deltaTime)
    (hcd : 0 < p.dashCooldown - deltaTime) :
    ((p.handleInput input deltaTime speedMultiplier).2.dashStarted = false)
    ∧ (p.handleInput input deltaTime speedMultiplier).1.dashCooldown
        = p.dashCooldown - deltaTime
    ∧ ((p.handleInput input deltaTime speedMultiplier).1.isDashing = true →
        p.isDashing = true)
    ∧ (p.isDashing = false →
        (p.handleInput input deltaTime speedMultiplier).1.dashTimeRemaining
            = p.dashTimeRemaining
        ∧ (p.handleInput input deltaTime speedMultiplier).1.dashDirection
            = p.dashDirection) := by
  have h0 : (0 : ℝ) < p.dashCooldown := by linarith
  have hne : ¬ (p.dashCooldown - deltaTime ≤ 0) := by linarith
  have hg : ¬ (p.isAlive = false) := by simp [halive]
  by_cases hd : p.isDashing = true <;>
    by_cases ht : p.dashTimeRemaining - deltaTime ≤ 0 <;>
      by_cases hm : input.movement.magnitude > 0 <;>
        simp [Player.handleInput, Player.canDash, hd, ht, hm, hne, hg, halive, h0]

/-- Witness for C6 (amended): cooldown 1000, tick 16, no movement input. -/
theorem c6_amended_dash_refused_witness :
    ({ Player.init 0 0 0 with dashCooldown := (1000 : ℝ) }).isAlive = true
    ∧ (0 : ℝ) ≤ 16
    ∧ (0 : ℝ) < ({ Player.init 0 0 0 with dashCooldown := (1000 : ℝ) }).dashCooldown - 16
    ∧ (({ Player.init 0 0 0 with dashCooldown := (1000 : ℝ) }).handleInput
        ⟨⟨0, 0⟩, true⟩ 16 1).2.dashStarted = false :=
  ⟨rfl, by norm_num, by norm_num,
   (c6_amended_dash_refused { Player.init 0 0 0 with dashCooldown := (1000 : ℝ) }
      ⟨⟨0, 0⟩, true⟩ 16 1 rfl (by norm_num) (by norm_num)).1⟩

theorem sqrt_dist_triangle (x1 y1 x2 y2 x3 y3 : ℝ) :
    Real.sqrt ((x1 - x3) * (x1 - x3) + (y1 - y3) * (y1 - y3))
      ≤ Real.sqrt ((x1 - x2) * (x1 - x2) + (y1 - y2) * (y1 - y2))
        + Real.sqrt ((x2 - x3) * (x2 - x3) + (y2 - y3) * (y2 - y3)) := by
  set u1 := x1 - x2 with hu1
  set u2 := y1 - y2 with hu2
  set v1 := x2 - x3 with hv1
  set v2 := y2 - y3 with hv2
  set s := Real.sqrt (u1 * u1 + u2 * u2) with hs
  set t := Real.sqrt (v1 * v1 + v2 * v2) with ht
  have hs0 : 0 ≤ s := Real.sqrt_nonneg _
  have ht0 : 0 ≤ t := Real.sqrt_nonneg _
  have hss : s * s = u1 * u1 + u2 * u2 :=
    Real.mul_self_sqrt (add_nonneg (mul_self_nonneg u1) (mul_self_nonneg u2))
  have htt : t * t = v1 * v1 + v2 * v2 :=
    Real.mul_self_sqrt (add_nonneg (mul_self_nonneg v1) (mul_self_nonneg v2))
  have hcs : (u1 * v1 + u2 * v2) ^ 2 ≤ (u1 * u1 + u2 * u2) * (v1 * v1 + v2 * v2) := by
    nlinarith [sq_nonneg (u1 * v2 - u2 * v1)]
  have hcross : u1 * v1 + u2 * v2 ≤ s * t := by
    nlinarith [hcs, hss, htt, mul_nonneg hs0 ht0, sq_nonneg (s * t - (u1 * v1 + u2 * v2)),
      sq_nonneg (s * t + (u1 * v1 + u2 * v2))]
  have harg : (x1 - x3) * (x1 - x3) + (y1 - y3) * (y1 - y3)
      = (u1 + v1) * (u1 + v1) + (u2 + v2) * (u2 + v2) := by
    rw [hu1, hu2, hv1, hv2]; ring
  rw [harg]
  have hle : (u1 + v1) * (u1 + v1) + (u2 + v2) * (u2 + v2) ≤ (s + t) * (s + t) := by
    nlinarith [hcross, hss, htt]
  calc Real.sqrt ((u1 + v1) * (u1 + v1) + (u2 + v2) * (u2 + v2))
      ≤ Real.sqrt ((s + t) * (s + t)) := Real.sqrt_le_sqrt hle
    _ = s + t := Real.sqrt_mul_self (by positivity)

theorem inDisc_dist_le (x y r qx qy : ℝ) (hr : 0 ≤ r) (h : inDisc x y r qx qy) :
    Real.sqrt ((qx - x) * (qx - x) + (qy - y) * (qy - y)) ≤ r := by
  have h2 := Real.sqrt_le_sqrt
    (show (qx - x) * (qx - x) + (qy - y) * (qy - y) ≤ r * r from h)
  rwa [Real.sqrt_mul_self hr] at h2

theorem inDisc_coord_bounds (x y r qx qy : ℝ) (hr : 0 ≤ r) (h : inDisc x y r qx qy) :
    x - r ≤ qx ∧ qx ≤ x + r ∧ y - r ≤ qy ∧ qy ≤ y + r := by
  rw [inDisc] at h
  refine ⟨?_, ?_, ?_, ?_⟩
  · nlinarith [sq_nonneg (qx - x + r), sq_nonneg (qy - y)]
  · nlinarith [sq_nonneg (qx - x - r), sq_nonneg (qy - y)]
  · nlinarith [sq_nonneg (qy - y + r), sq_nonneg (qx - x)]
  · nlinarith [sq_nonneg (qy - y - r), sq_nonneg (qx - x)]

/-- C2: For every position and radius r > 0, in both boundary modes: a
bounding circle that is partially but not completely outside makes
`isOutOfBounds` true and `isEliminated` false; `isEliminated` implies
`isOutOfBounds`; and whenever the two predicates disagree it is
`isOutOfBounds` without `isEliminated` (the partial-overlap band). -/
theorem c2_boundary_predicates (a : Arena) (x y r : ℝ) (hr : 0 < r) :
    (a.crossesBoundary x y r → a.isOutOfBounds x y r ∧ ¬ a.isEliminated x y r)
    ∧ (a.isEliminated x y r → a.isOutOfBounds x y r)
    ∧ (¬ (a.isOutOfBounds x y r ↔ a.isEliminated x y r) →
        a.isOutOfBounds x y r ∧ ¬ a.isEliminated x y r) := by
  have hEO : a.isEliminated x y r → a.isOutOfBounds x y r := by
    by_cases hc : a.centrifugeMode = true
    · simp only [Arena.isEliminated, Arena.isOutOfBounds, Arena.isEliminatedCentrifuge,
        Arena.isOutOfCentrifuge, hc, if_true]
      rintro ⟨-, h⟩
      exact ⟨trivial, by linarith⟩
    · simp only [Arena.isEliminated, Arena.isOutOfBounds, hc, Bool.false_eq_true, if_false]
      rintro (h | h | h | h)
      · exact Or.inl (by linarith)
      · exact Or.inr (Or.inl (by linarith))
      · exact Or.inr (Or.inr (Or.inl (by linarith)))
      · exact Or.inr (Or.inr (Or.inr (by linarith)))
  refine ⟨?_, hEO, fun hne => ?_⟩
  · rintro ⟨⟨ix, iy, hiDisc, hiReg⟩, ox, oy, hoDisc, hoReg⟩
    by_cases hc : a.centrifugeMode = true
    · simp only [Arena.regionContains, hc, if_true] at hiReg hoReg
      simp only [Arena.isEliminated, Arena.isOutOfBounds, Arena.isEliminatedCentrifuge,
        Arena.isOutOfCentrifuge, hc, if_true]
      have hdi : Real.sqrt ((ix - x) * (ix - x) + (iy - y) * (iy - y)) ≤ r :=
        inDisc_dist_le x y r ix iy hr.le hiDisc
      have hdo : Real.sqrt ((ox - x) * (ox - x) + (oy - y) * (oy - y)) ≤ r :=
        inDisc_dist_le x y r ox oy hr.le hoDisc
      constructor
      · -- out of bounds: the center distance plus r exceeds the circle radius,
        -- else the outside point would be inside via the triangle inequality
        refine ⟨trivial, ?_⟩
        by_contra hno
        push_neg at hno
        have htri := sqrt_dist_triangle ox oy x y a.centerX a.centerY
        exact hoReg (by linarith)
      · -- not eliminated: the inside point pins the center distance below R + r
        rintro ⟨-, helim⟩
        have htri := sqrt_dist_triangle x y ix iy a.centerX a.centerY
        have hdi2 : Real.sqrt ((x - ix) * (x - ix) + (y - iy) * (y - iy)) ≤ r := by
          rw [show (x - ix) * (x - ix) + (y - iy) * (y - iy)
            = (ix - x) * (ix - x) + (iy - y) * (iy - y) from by ring]
          exact hdi
        linarith
    · simp only [Arena.regionContains, hc, Bool.false_eq_true, if_false] at hiReg hoReg
      simp only [Arena.isEliminated, Arena.isOutOfBounds, hc, Bool.false_eq_true, if_false]
      obtain ⟨hi1, hi2, hi3, hi4⟩ := inDisc_coord_bounds x y r ix iy hr.le hiDisc
      obtain ⟨ho1, ho2, ho3, ho4⟩ := inDisc_coord_bounds x y r ox oy hr.le hoDisc
      constructor
      · -- out of bounds: were the circle fully inside, the outside point
        -- would satisfy the rectangle bounds
        by_contra hno
        push_neg at hno
        obtain ⟨h1, h2, h3, h4⟩ := hno
        exact hoReg ⟨by linarith, by linarith, by linarith, by linarith⟩
      · -- not eliminated: the inside point meets every rectangle bound
        obtain ⟨hr1, hr2, hr3, hr4⟩ := hiReg
        rintro (h | h | h | h) <;> linarith
  · by_cases ho : a.isOutOfBounds x y r
    · exact ⟨ho, fun he => hne (iff_of_true ho he)⟩
    · exact absurd (iff_of_false ho (fun he => ho (hEO he))) hne

/-- Witness for C2 at a concrete radius on the default arena. -/
theorem c2_boundary_predicates_witness :
    (0 : ℝ) < 25
    ∧ (((Arena.init 1000 700).crossesBoundary 40 350 25 →
        (Arena.init 1000 700).isOutOfBounds 40 350 25
          ∧ ¬ (Arena.init 1000 700).isEliminated 40 350 25)
      ∧ ((Arena.init 1000 700).isEliminated 40 350 25 →
          (Arena.init 1000 700).isOutOfBounds 40 350 25)
      ∧ (¬ ((Arena.init 1000 700).isOutOfBounds 40 350 25 ↔
            (Arena.init 1000 700).isEliminated 40 350 25) →
          (Arena.init 1000 700).isOutOfBounds 40 350 25
            ∧ ¬ (Arena.init 1000 700).isEliminated 40 350 25)) :=
  ⟨by norm_num, c2_boundary_predicates (Arena.init 1000 700) 40 350 25 (by norm_num)⟩

theorem floorInv_update (a : Arena) (deltaTime : ℝ) (isPlaying : Bool)
    (ha : a.floorInv) : (a.update deltaTime isPlaying).floorInv := by
  obtain ⟨h1, h2, h3, h4, h5, h6⟩ := ha
  -- the clamped shrink progress keeps the scale factor above the floor
  have keyW : ∀ progress : ℝ, progress ≤ 1 →
      a.minSizePercent * a.arenaScale * (a.originalBounds.right - a.originalBounds.left)
        ≤ (a.originalBounds.right - a.originalBounds.left) *
          ((1 - (1 - a.minSizePercent) * progress) * a.arenaScale) := by
    intro pr hpr
    nlinarith [mul_nonneg (mul_nonneg h1 h4)
      (mul_nonneg (show (0 : ℝ) ≤ 1 - a.minSizePercent by linarith)
        (show (0 : ℝ) ≤ 1 - pr by linarith))]
  have keyH : ∀ progress : ℝ, progress ≤ 1 →
      a.minSizePercent * a.arenaScale * (a.originalBounds.bottom - a.originalBounds.top)
        ≤ (a.originalBounds.bottom - a.originalBounds.top) *
          ((1 - (1 - a.minSizePercent) * progress) * a.arenaScale) := by
    intro pr hpr
    nlinarith [mul_nonneg (mul_nonneg h2 h4)
      (mul_nonneg (show (0 : ℝ) ≤ 1 - a.minSizePercent by linarith)
        (show (0 : ℝ) ≤ 1 - pr by linarith))]
  simp only [Arena.update, Arena.floorInv]
  split_ifs <;>
    refine ⟨h1, h2, h3, h4, ?_, ?_⟩ <;>
      first
        | exact h5
        | exact h6
        | exact keyW _ (min_le_left _ _)
        | exact keyH _ (min_le_left _ _)

theorem floorInv_applyOp (a : Arena) (op : AOp) (ha : a.floorInv) (hop : op.scaleOK) :
    (a.applyOp op).floorInv := by
  obtain ⟨h1, h2, h3, h4, h5, h6⟩ := ha
  cases op with
  | update deltaTime isPlaying =>
    exact floorInv_update a deltaTime isPlaying ⟨h1, h2, h3, h4, h5, h6⟩
  | setScale scale =>
    have hs0 : (0 : ℝ) ≤ scale := hop
    refine ⟨h1, h2, h3, hs0, ?_, ?_⟩
    · simp only [Arena.applyOp, Arena.setScale, Arena.applyScale]
      nlinarith [mul_nonneg (mul_nonneg h1 hs0)
        (show (0 : ℝ) ≤ 1 - a.minSizePercent by linarith)]
    · simp only [Arena.applyOp, Arena.setScale, Arena.applyScale]
      nlinarith [mul_nonneg (mul_nonneg h2 hs0)
        (show (0 : ℝ) ≤ 1 - a.minSizePercent by linarith)]
  | setShrinkSpeed multiplier => exact ⟨h1, h2, h3, h4, h5, h6⟩
  | setAliveCount count =>
    simp only [Arena.applyOp, Arena.setAliveCount]
    split_ifs <;> exact ⟨h1, h2, h3, h4, h5, h6⟩
  | activateCentrifuge => exact ⟨h1, h2, h3, h4, h5, h6⟩

theorem floorInv_runOps (ops : List AOp) : ∀ a : Arena, a.floorInv →
    (∀ op ∈ ops, op.scaleOK) → (a.runOps ops).floorInv := by
  induction ops with
  | nil => exact fun a ha _ => ha
  | cons op rest ih =>
    intro a ha hops
    have hstep := floorInv_applyOp a op ha (hops op (List.mem_cons_self op rest))
    exact ih (a.applyOp op) hstep fun o ho => hops o (List.mem_cons_of_mem op ho)

/-- C8: Over any sequence of in-round arena operations (updates at any
roundTime, nonnegative scale settings, shrink-speed settings, alive-count
reports, centrifuge activation), the arena's width and height never fall
below `minSizePercent * arenaScale` times the corresponding original
extent; a freshly constructed arena starts inside the invariant and reset
restores it. -/
theorem c8_shrink_floor (a : Arena) (ops : List AOp) (w h : ℝ)
    (ha : a.floorInv) (hops : ∀ op ∈ ops, op.scaleOK) (hw : 100 ≤ w) (hh : 100 ≤ h) :
    (a.runOps ops).floorInv
    ∧ (a.runOps ops).minSizePercent * (a.runOps ops).arenaScale *
        ((a.runOps ops).originalBounds.right - (a.runOps ops).originalBounds.left)
        ≤ (a.runOps ops).width
    ∧ (a.runOps ops).minSizePercent * (a.runOps ops).arenaScale *
        ((a.runOps ops).originalBounds.bottom - (a.runOps ops).originalBounds.top)
        ≤ (a.runOps ops).height
    ∧ (Arena.init w h).floorInv
    ∧ (a.reset).floorInv := by
  have hrun := floorInv_runOps ops a ha hops
  obtain ⟨g1, g2, g3, g4, g5, g6⟩ := hrun
  obtain ⟨h1, h2, h3, h4, h5, h6⟩ := ha
  refine ⟨⟨g1, g2, g3, g4, g5, g6⟩, g5, g6, ?_, ?_⟩
  · refine ⟨?_, ?_, ?_, ?_, ?_, ?_⟩ <;>
      simp only [Arena.init, Arena.floorInv, CONFIG.ARENA_PADDING] <;> nlinarith
  · refine ⟨h1, h2, h3, ?_, ?_, ?_⟩ <;> simp only [Arena.reset]
    · norm_num
    · nlinarith [mul_nonneg (show (0 : ℝ) ≤ 1 - a.minSizePercent by linarith) h1]
    · nlinarith [mul_nonneg (show (0 : ℝ) ≤ 1 - a.minSizePercent by linarith) h2]

/-- Witness for C8: the default arena, one playing update at 9000 ms into
the round (inside the shrink window). -/
theorem c8_shrink_floor_witness :
    (Arena.init 1000 700).floorInv
    ∧ (∀ op ∈ [AOp.update 9000 true], op.scaleOK)
    ∧ ((Arena.init 1000 700).runOps [AOp.update 9000 true]).floorInv
    ∧ (Arena.init 800 600).floorInv := by
  have hinv : (Arena.init 1000 700).floorInv := by
    refine ⟨?_, ?_, ?_, ?_, ?_, ?_⟩ <;>
      norm_num [Arena.init, Arena.floorInv, CONFIG.ARENA_PADDING]
  have hops : ∀ op ∈ [AOp.update 9000 true], op.scaleOK := by
    intro op hop
    rw [List.mem_singleton] at hop
    subst hop
    exact trivial
  have r := c8_shrink_floor (Arena.init 1000 700) [AOp.update 9000 true] 800 600
    hinv hops (by norm_num) (by norm_num)
  exact ⟨hinv, hops, r.1, r.2.2.2.1⟩

theorem not_mem_forceRoundEnd_events (rm : RoundManager) (players : List Player) :
    REvent.centrifugeStart ∉ (rm.forceRoundEnd players).2.2 := by
  simp [RoundManager.forceRoundEnd]

theorem not_mem_checkRoundEnd_events (rm : RoundManager) (players : List Player) :
    REvent.centrifugeStart ∉ (rm.checkRoundEnd players).2.2 := by
  simp only [RoundManager.checkRoundEnd]
  split_ifs <;> simp

theorem update_no_centrifuge_event (rm : RoundManager) (deltaTime : ℝ)
    (players : List Player) (oracle : Modifier) :
    REvent.centrifugeStart ∉ (rm.update deltaTime players oracle).2.2 := by
  cases hs : rm.state
  case waiting => simp [RoundManager.update, hs]
  case matchEnd => simp [RoundManager.update, hs]
  case countdown =>
    simp only [RoundManager.update, hs, RoundManager.updateCountdown]
    split_ifs <;> simp
  case roundEnd =>
    simp only [RoundManager.update, hs, RoundManager.updateRoundEnd,
      RoundManager.startCountdown]
    split_ifs
    all_goals
      first
        | exact (List.not_mem_nil REvent.centrifugeStart : _)
        | (cases players.findIdx? fun p => decide p.hasWonMatch <;> simp)
  case playing =>
    simp only [RoundManager.update, hs, RoundManager.updatePlaying]
    split_ifs <;>
      simp [not_mem_forceRoundEnd_events, not_mem_checkRoundEnd_events]

/-- C5 counterexample: there is no round-manager update, from any state and
with any inputs, whose emitted events include the centrifuge-activation
notification — so no reachable execution has the round manager activate
centrifuge mode. -/
theorem c5_counterexample :
    ¬ ∃ (rm : RoundManager) (deltaTime : ℝ) (players : List Player) (oracle : Modifier),
      REvent.centrifugeStart ∈ (rm.update deltaTime players oracle).2.2 := by
  rintro ⟨rm, deltaTime, players, oracle, hmem⟩
  exact update_no_centrifuge_event rm deltaTime players oracle hmem

theorem step_centrifugeMode_false (s : GState) (op : GOp)
    (h : s.arena.centrifugeMode = false) : (s.step op).arena.centrifugeMode = false := by
  cases op with
  | rmUpdate deltaTime oracle => exact h
  | arenaUpdate deltaTime =>
    simp only [GState.step, Arena.update]
    split_ifs <;> exact h
  | resetRound => rfl
  | modifierScale scale => exact h
  | modifierShrink speed => exact h
  | handleInput i input deltaTime speedMod => exact h
  | playerUpdate i deltaTime frictionMod => exact h
  | setDistance i => exact h
  | centrifugeForce i => exact h
  | suddenDeathForce i => exact h
  | instabilityForce i => exact h
  | idlePenalty i => exact h
  | setAliveCnt =>
    simp only [GState.step, Arena.setAliveCount]
    split_ifs <;> exact h
  | collide i j pushMod bounceMod =>
    have harena : (s.step (GOp.collide i j pushMod bounceMod)).arena = s.arena := by
      simp only [GState.step]
      split_ifs <;>
        first
          | rfl
          | (split <;> first | rfl | (split_ifs <;> rfl))
    rw [harena]
    exact h
  | boundaryCheck i => exact h

/-- C5 (amended): the round manager never fires the centrifuge-activation
notification — no update emits it — so centrifuge mode is never activated by
the round manager: through any sequence of modelled game operations,
`Arena.centrifugeMode` stays false.  `Arena.activateCentrifuge` itself would
set the flag (and `Game` registers a handler that calls it), but nothing
ever invokes that handler. -/
theorem c5_amended_no_centrifuge (rm : RoundManager) (deltaTime : ℝ)
    (players : List Player) (oracle : Modifier) (a : Arena) (s : GState)
    (ops : List GOp) :
    REvent.centrifugeStart ∉ (rm.update deltaTime players oracle).2.2
    ∧ (a.activateCentrifuge).centrifugeMode = true
    ∧ (s.arena.centrifugeMode = false → (s.run ops).arena.centrifugeMode = false) := by
  refine ⟨update_no_centrifuge_event rm deltaTime players oracle, rfl, ?_⟩
  intro h0
  induction ops generalizing s with
  | nil => exact h0
  | cons op rest ih => exact ih (s.step op) (step_centrifugeMode_false s op h0)

/-- Witness for C5 (amended): the default arena starts out of centrifuge
mode and stays there across a modelled tick. -/
theorem c5_amended_no_centrifuge_witness :
    (Arena.init 1000 700).centrifugeMode = false
    ∧ ((GState.mk RoundManager.init (Arena.init 1000 700) []).run
        [GOp.arenaUpdate 16]).arena.centrifugeMode = false :=
  ⟨rfl,
   (c5_amended_no_centrifuge RoundManager.init 16 [] Modifier.NONE (Arena.init 1000 700)
      (GState.mk RoundManager.init (Arena.init 1000 700) [])
      [GOp.arenaUpdate 16]).2.2 rfl⟩

/-- Full description of the closest-player scan: over the enumerated player
list it returns `none` when nobody is alive, else the pair of the first
index achieving the minimal effective distance among alive players together
with that distance. -/
theorem closestStep_foldl_spec (pre : List Player) :
    (pre.enum.foldl closestStep none = none ∧
      ∀ (j : ℕ) (q : Player), pre[j]? = some q → q.isAlive = false)
    ∨ ∃ w pw, pre.enum.foldl closestStep none = some (w, effDist pw) ∧
        pre[w]? = some pw ∧ pw.isAlive = true ∧
        (∀ (j : ℕ) (q : Player), pre[j]? = some q → q.isAlive = true → effDist pw ≤ effDist q) ∧
        (∀ (j : ℕ) (q : Player), pre[j]? = some q → q.isAlive = true → j < w → effDist pw < effDist q) := by
  induction pre using List.reverseRecOn with
  | nil => exact Or.inl ⟨rfl, fun j q hq => by simp at hq⟩
  | append_singleton l a ih =>
    have henum : (l ++ [a]).enum = l.enum ++ [(l.length, a)] := by
      rw [List.enum_append]
      simp [List.enumFrom]
    have hfold : (l ++ [a]).enum.foldl closestStep none
        = closestStep (l.enum.foldl closestStep none) (l.length, a) := by
      rw [henum, List.foldl_append]
      rfl
    have hgetl : ∀ j : ℕ, j < l.length → (l ++ [a])[j]? = l[j]? := by
      intro j hj
      rw [List.getElem?_append]
      exact if_pos hj
    have hgeta : (l ++ [a])[l.length]? = some a := by
      rw [List.getElem?_append, if_neg (lt_irrefl l.length)]
      simp
    have hgetover : ∀ j : ℕ, l.length < j → (l ++ [a])[j]? = none := by
      intro j hj
      rw [List.getElem?_append, if_neg (by omega)]
      rw [List.getElem?_eq_none]
      simp
      omega
    rcases ih with ⟨hnone, hdead⟩ | ⟨w, pw, hf, hget, halive, hmin, hstrict⟩
    · by_cases ha : a.isAlive = true
      · refine Or.inr ⟨l.length, a, ?_, hgeta, ha, ?_, ?_⟩
        · rw [hfold, hnone]
          simp [closestStep, ha]
        · intro j q hq hqa
          rcases lt_trichotomy j l.length with hj | hj | hj
          · rw [hgetl j hj] at hq
            exact absurd (hdead j q hq) (by simp [hqa])
          · subst hj
            rw [hgeta] at hq
            cases hq
            exact le_refl _
          · rw [hgetover j hj] at hq
            cases hq
        · intro j q hq hqa hj
          rw [hgetl j hj] at hq
          exact absurd (hdead j q hq) (by simp [hqa])
      · refine Or.inl ⟨?_, ?_⟩
        · rw [hfold, hnone]
          simp [closestStep, ha]
        · intro j q hq
          rcases lt_trichotomy j l.length with hj | hj | hj
          · rw [hgetl j hj] at hq
            exact hdead j q hq
          · subst hj
            rw [hgeta] at hq
            cases hq
            simpa using ha
          · rw [hgetover j hj] at hq
            cases hq
    · have hw : w < l.length := (List.getElem?_eq_some.mp hget).1
      by_cases ha : a.isAlive = true
      · by_cases hlt : effDist a < effDist pw
        · refine Or.inr ⟨l.length, a, ?_, hgeta, ha, ?_, ?_⟩
          · rw [hfold, hf]
            simp [closestStep, ha, hlt]
          · intro j q hq hqa
            rcases lt_trichotomy j l.length with hj | hj | hj
            · rw [hgetl j hj] at hq
              exact le_of_lt (lt_of_lt_of_le hlt (hmin j q hq hqa))
            · subst hj
              rw [hgeta] at hq
              cases hq
              exact le_refl _
            · rw [hgetover j hj] at hq
              cases hq
          · intro j q hq hqa hj
            rw [hgetl j hj] at hq
            exact lt_of_lt_of_le hlt (hmin j q hq hqa)
        · refine Or.inr ⟨w, pw, ?_, by rw [hgetl w hw]; exact hget, halive, ?_, ?_⟩
          · rw [hfold, hf]
            simp [closestStep, ha, hlt]
          · intro j q hq hqa
            rcases lt_trichotomy j l.length with hj | hj | hj
            · rw [hgetl j hj] at hq
              exact hmin j q hq hqa
            · subst hj
              rw [hgeta] at hq
              cases hq
              exact le_of_not_lt hlt
            · rw [hgetover j hj] at hq
              cases hq
          · intro j q hq hqa hj
            have hjl : j < l.length := lt_trans hj hw
            rw [hgetl j hjl] at hq
            exact hstrict j q hq hqa hj
      · refine Or.inr ⟨w, pw, ?_, by rw [hgetl w hw]; exact hget, halive, ?_, ?_⟩
        · rw [hfold, hf]
          simp [closestStep, ha]
        · intro j q hq hqa
          rcases lt_trichotomy j l.length with hj | hj | hj
          · rw [hgetl j hj] at hq
            exact hmin j q hq hqa
          · subst hj
            rw [hgeta] at hq
            cases hq
            exact absurd hqa (by simp [ha])
          · rw [hgetover j hj] at hq
            cases hq
        · intro j q hq hqa hj
          have hjl : j < l.length := lt_trans hj hw
          rw [hgetl j hjl] at hq
          exact hstrict j q hq hqa hj

/-- The closest-player scan picks an alive player of minimal effective
distance, the earliest such on ties. -/
theorem closestAliveIdx_spec (players : List Player)
    (h : ∃ p ∈ players, p.isAlive = true) :
    ∃ w pw, closestAliveIdx players = some w ∧ players[w]? = some pw ∧
      pw.isAlive = true ∧
      (∀ (j : ℕ) (q : Player), players[j]? = some q → q.isAlive = true → effDist pw ≤ effDist q) ∧
      (∀ (j : ℕ) (q : Player), players[j]? = some q → q.isAlive = true → j < w → effDist pw < effDist q) := by
  rcases closestStep_foldl_spec players with ⟨hnone, hdead⟩ | ⟨w, pw, hf, hget, ha, hmin, hstr⟩
  · obtain ⟨p, hp, hpa⟩ := h
    obtain ⟨j, hj⟩ := List.mem_iff_getElem?.mp hp
    exact absurd (hdead j p hj) (by simp [hpa])
  · exact ⟨w, pw, by rw [closestAliveIdx, hf]; rfl, hget, ha, hmin, hstr⟩

theorem listUpd_getElem? {α : Type} (l : List α) (i : ℕ) (f : α → α) (j : ℕ) :
    (listUpd l i f)[j]? = if j = i then Option.map f l[j]? else l[j]? := by
  simp only [listUpd, List.getElem?_map, List.getElem?_enum]
  cases l[j]? <;> split_ifs <;> simp_all

theorem enumMap_getElem? {α : Type} (l : List α) (g : ℕ × α → α) (j : ℕ) :
    (l.enum.map g)[j]? = Option.map (fun a => g (j, a)) l[j]? := by
  simp only [List.getElem?_map, List.getElem?_enum]
  cases l[j]? <;> simp

theorem findIdx?_alive_spec (players : List Player) (w : ℕ)
    (h : players.findIdx? (fun p => p.isAlive) = some w) :
    ∃ q : Player, players[w]? = some q ∧ q.isAlive = true := by
  obtain ⟨hlt, hfi⟩ := List.findIdx?_eq_some_iff_findIdx_eq.mp h
  refine ⟨players[w], List.getElem?_eq_some.mpr ⟨hlt, rfl⟩, ?_⟩
  have := @List.findIdx_getElem _ (fun p => p.isAlive) players (by rw [hfi]; exact hlt)
  simpa [hfi] using this

/-- Joint description of `forceRoundEnd` with at least two alive players:
the winner index, its minimality/tie-breaking, the resulting state, the
emitted event and the elimination of every other alive player. -/
theorem forceRoundEnd_spec (rm : RoundManager) (players : List Player)
    (h2 : 2 ≤ players.countP fun p => p.isAlive) :
    ∃ (w : ℕ) (pw : Player), players[w]? = some pw ∧ pw.isAlive = true
      ∧ (∀ (j : ℕ) (q : Player), players[j]? = some q → q.isAlive = true →
          effDist pw ≤ effDist q)
      ∧ (∀ (j : ℕ) (q : Player), players[j]? = some q → q.isAlive = true → j < w →
          effDist pw < effDist q)
      ∧ (rm.forceRoundEnd players).1.state = RState.roundEnd
      ∧ (rm.forceRoundEnd players).1.roundWinner = some w
      ∧ (rm.forceRoundEnd players).2.2
          = [REvent.roundEnd (some w) rm.currentRound Reason.timeout]
      ∧ (∀ (i : ℕ) (q : Player), (rm.forceRoundEnd players).2.1[i]? = some q →
          (q.isAlive = true ↔ i = w)) := by
  have hex : ∃ p ∈ players, p.isAlive = true := by
    have h0 : 0 < players.countP (fun p => p.isAlive) := by omega
    exact List.countP_pos_iff.mp h0
  obtain ⟨w, pw, hC, hget, ha, hmin, hstr⟩ := closestAliveIdx_spec players hex
  have hcount : players.countP (fun p => p.isAlive) ≠ 0 := by omega
  have hcount1 : players.countP (fun p => p.isAlive) ≠ 1 := by omega
  have hwinner :
      (if (players.countP fun p => p.isAlive) = 0 then none
       else if (players.countP fun p => p.isAlive) = 1 then
         players.findIdx? fun p => p.isAlive
       else closestAliveIdx players) = some w := by
    rw [if_neg hcount, if_neg hcount1, hC]
  refine ⟨w, pw, hget, ha, hmin, hstr, rfl, ?_, ?_, ?_⟩
  · show (if (players.countP fun p => p.isAlive) = 0 then none
      else if (players.countP fun p => p.isAlive) = 1 then
        players.findIdx? fun p => p.isAlive
      else closestAliveIdx players) = some w
    exact hwinner
  · show [REvent.roundEnd
        (if (players.countP fun p => p.isAlive) = 0 then none
         else if (players.countP fun p => p.isAlive) = 1 then
           players.findIdx? fun p => p.isAlive
         else closestAliveIdx players) rm.currentRound Reason.timeout] = _
    rw [hwinner]
  · intro i q hq
    simp only [RoundManager.forceRoundEnd, hwinner, if_pos h2] at hq
    rw [listUpd_getElem?] at hq
    by_cases hiw : i = w
    · subst hiw
      rw [if_pos rfl, enumMap_getElem?, hget] at hq
      simp only [Option.map_some', Option.some.injEq] at hq
      rw [if_neg (show ¬ (pw.isAlive = true ∧ ¬ ((some i : Option ℕ) = some i))
        from by simp)] at hq
      cases hq
      simp [Player.addWin, ha]
    · rw [if_neg hiw, enumMap_getElem?] at hq
      rcases hr : players[i]? with _ | r
      · rw [hr] at hq
        cases hq
      · rw [hr] at hq
        simp only [Option.map_some', Option.some.injEq] at hq
        have hne : ¬ ((some i : Option ℕ) = some w) := by simpa using hiw
        refine iff_of_false ?_ hiw
        by_cases hra : r.isAlive = true
        · rw [if_pos ⟨hra, hne⟩] at hq
          cases hq
          simp [Player.eliminate]
        · rw [if_neg (by tauto)] at hq
          cases hq
          simp [hra]

/-- C10: With two or more living players, `forceRoundEnd` keeps the living
player with the strictly smallest stored `distanceFromCenter` (earliest in
the list on ties) and eliminates the rest; an unset (or zero) field counts
as distance 0, so such a player is kept unless an earlier-listed living
player is also at distance 0. -/
theorem c10_force_end_closest (rm : RoundManager) (players : List Player)
    (h2 : 2 ≤ players.countP fun p => p.isAlive) :
    (∀ q : Player, q.distanceFromCenter = none → effDist q = 0)
    ∧ (∀ (q : Player) (d : ℝ), q.distanceFromCenter = some d → effDist q = d)
    ∧ ∃ (w : ℕ) (pw : Player), players[w]? = some pw ∧ pw.isAlive = true
      ∧ (rm.forceRoundEnd players).1.roundWinner = some w
      ∧ (∀ (i : ℕ) (q : Player), (rm.forceRoundEnd players).2.1[i]? = some q →
          (q.isAlive = true ↔ i = w))
      ∧ (∀ (j : ℕ) (q : Player), players[j]? = some q → q.isAlive = true →
          effDist pw ≤ effDist q)
      ∧ (∀ (j : ℕ) (q : Player), players[j]? = some q → q.isAlive = true → j < w →
          effDist pw < effDist q)
      ∧ (∀ (i : ℕ) (pi : Player), players[i]? = some pi → pi.isAlive = true →
          effDist pi = 0 →
          (∀ (j : ℕ) (q : Player), players[j]? = some q → q.isAlive = true →
            0 ≤ effDist q) →
          (∀ (j : ℕ) (q : Player), players[j]? = some q → q.isAlive = true → j < i →
            effDist q ≠ 0) →
          w = i) := by
  obtain ⟨w, pw, hget, ha, hmin, hstr, _, hwin, _, helim⟩ := forceRoundEnd_spec rm players h2
  refine ⟨fun q hq => by simp [effDist, hq], fun q d hq => by simp [effDist, hq],
    w, pw, hget, ha, hwin, helim, hmin, hstr, ?_⟩
  intro i pi hgeti hai hzero hpos hearlier
  rcases lt_trichotomy w i with hlt | heq | hgt
  · have hle : effDist pw ≤ effDist pi := hmin i pi hgeti hai
    have hge : 0 ≤ effDist pw := hpos w pw hget ha
    have hz : effDist pw = 0 := le_antisymm (by rw [← hzero]; exact hle) hge
    exact absurd hz (hearlier w pw hget ha hlt)
  · exact heq
  · have hlt2 : effDist pw < effDist pi := hstr i pi hgeti hai hgt
    have hge : 0 ≤ effDist pw := hpos w pw hget ha
    rw [hzero] at hlt2
    linarith

/-- Witness for C10: two alive players at stored distances 50 and 20 — the
second one (index 1, closer to the center) is kept as round winner. -/
theorem c10_force_end_closest_witness :
    2 ≤ ([{ Player.init 0 100 350 with distanceFromCenter := some (50 : ℝ) },
          { Player.init 1 900 350 with distanceFromCenter := some (20 : ℝ) }] :
        List Player).countP (fun p => p.isAlive)
    ∧ (∀ q : Player, q.distanceFromCenter = none → effDist q = 0)
    ∧ (RoundManager.init.forceRoundEnd
        [{ Player.init 0 100 350 with distanceFromCenter := some (50 : ℝ) },
         { Player.init 1 900 350 with distanceFromCenter := some (20 : ℝ) }]).1.roundWinner
      = some 1 := by
  have hcount : 2 ≤ ([{ Player.init 0 100 350 with distanceFromCenter := some (50 : ℝ) },
          { Player.init 1 900 350 with distanceFromCenter := some (20 : ℝ) }] :
        List Player).countP (fun p => p.isAlive) := by
    simp [List.countP_cons, Player.init]
  refine ⟨hcount,
    (c10_force_end_closest RoundManager.init
      [{ Player.init 0 100 350 with distanceFromCenter := some (50 : ℝ) },
       { Player.init 1 900 350 with distanceFromCenter := some (20 : ℝ) }] hcount).1, ?_⟩
  norm_num [RoundManager.forceRoundEnd, closestAliveIdx, closestStep, effDist,
    Player.init, List.countP_cons, List.enum, List.enumFrom]

theorem deadFrozen_iff (l : List Player) :
    DeadFrozen l ↔ ∀ (i : ℕ) (p : Player), l[i]? = some p → p.isAlive = false →
      p.velocity = Vec2.zero := by
  constructor
  · intro h i p hget hdead
    exact h p (List.mem_iff_getElem?.mpr ⟨i, hget⟩) hdead
  · intro h p hp hdead
    obtain ⟨i, hi⟩ := List.mem_iff_getElem?.mp hp
    exact h i p hi hdead

theorem listUpd_addWin_deadFrozen (l : List Player) (w : ℕ) (h : DeadFrozen l) :
    DeadFrozen (listUpd l w Player.addWin) := by
  rw [deadFrozen_iff] at h ⊢
  intro i p hget hdead
  rw [listUpd_getElem?] at hget
  split_ifs at hget with hiw
  · rcases hl : l[i]? with _ | q
    · rw [hl] at hget
      cases hget
    · rw [hl] at hget
      simp only [Option.map_some', Option.some.injEq] at hget
      cases hget
      exact h i q hl hdead
  · exact h i p hget hdead

theorem elimMap_deadFrozen (l : List Player) (W : Option ℕ) (h : DeadFrozen l) :
    DeadFrozen (l.enum.map fun q =>
      if q.2.isAlive = true ∧ some q.1 ≠ W then q.2.eliminate else q.2) := by
  rw [deadFrozen_iff] at h ⊢
  intro i p hget hdead
  rw [enumMap_getElem?] at hget
  rcases hl : l[i]? with _ | q
  · rw [hl] at hget
    cases hget
  · rw [hl] at hget
    simp only [Option.map_some', Option.some.injEq] at hget
    split_ifs at hget
    · cases hget
      rfl
    · cases hget
      exact h i _ hl hdead

theorem checkRoundEnd_deadFrozen (rm : RoundManager) (players : List Player)
    (h : DeadFrozen players) : DeadFrozen (rm.checkRoundEnd players).2.1 := by
  simp only [RoundManager.checkRoundEnd]
  split_ifs with hc hc1
  · rcases hW : players.findIdx? fun p => p.isAlive with _ | w
    · simpa [hW] using h
    · simpa [hW] using listUpd_addWin_deadFrozen players w h
  · exact h
  · exact h

theorem forceRoundEnd_deadFrozen (rm : RoundManager) (players : List Player)
    (h : DeadFrozen players) : DeadFrozen (rm.forceRoundEnd players).2.1 := by
  simp only [RoundManager.forceRoundEnd]
  rcases hW : (if (players.countP fun p => p.isAlive) = 0 then none
      else if (players.countP fun p => p.isAlive) = 1 then
        players.findIdx? fun p => p.isAlive
      else closestAliveIdx players) with _ | w <;>
    simp only [hW] <;> split_ifs with hcnt
  · exact elimMap_deadFrozen players none h
  · exact h
  · exact listUpd_addWin_deadFrozen _ w (elimMap_deadFrozen players (some w) h)
  · exact listUpd_addWin_deadFrozen _ w h

theorem fst_mk_eq {α β : Type _} (a : α) (b : β) : (a, b).1 = a := rfl

theorem snd_mk_eq {α β : Type _} (a : α) (b : β) : (a, b).2 = b := rfl

theorem updatePlaying_deadFrozen (rm : RoundManager) (deltaTime : ℝ)
    (players : List Player) (h : DeadFrozen players) :
    DeadFrozen (rm.updatePlaying deltaTime players).2.1 := by
  simp only [RoundManager.updatePlaying]
  split_ifs <;> simp only [snd_mk_eq, fst_mk_eq] <;>
    first
      | exact forceRoundEnd_deadFrozen _ players h
      | exact checkRoundEnd_deadFrozen _ players h

theorem rmUpdate_deadFrozen (rm : RoundManager) (deltaTime : ℝ) (players : List Player)
    (oracle : Modifier) (h : DeadFrozen players) :
    DeadFrozen (rm.update deltaTime players oracle).2.1 := by
  cases hs : rm.state
  case waiting => simp only [RoundManager.update, hs]; exact h
  case matchEnd => simp only [RoundManager.update, hs]; exact h
  case countdown => simp only [RoundManager.update, hs]; exact h
  case roundEnd => simp only [RoundManager.update, hs]; exact h
  case playing =>
    simp only [RoundManager.update, hs]
    exact updatePlaying_deadFrozen rm deltaTime players h

theorem handleInput_isAlive (p : Player) (input : PInput) (deltaTime speedMultiplier : ℝ) :
    (p.handleInput input deltaTime speedMultiplier).1.isAlive = p.isAlive := by
  simp only [Player.handleInput, Player.startDash]
  split_ifs <;> rfl

theorem update_isAlive (p : Player) (deltaTime frictionMultiplier : ℝ) :
    (p.update deltaTime frictionMultiplier).isAlive = p.isAlive := by
  simp only [Player.update]
  split_ifs <;> rfl

theorem handleInput_dead (p : Player) (input : PInput) (deltaTime speedMultiplier : ℝ)
    (h : p.isAlive = false) : (p.handleInput input deltaTime speedMultiplier).1 = p := by
  simp [Player.handleInput, h]

theorem update_dead (p : Player) (deltaTime frictionMultiplier : ℝ)
    (h : p.isAlive = false) : p.update deltaTime frictionMultiplier = p := by
  simp [Player.update, h]

theorem eliminate_isAlive (p : Player) : p.eliminate.isAlive = false := rfl

theorem eliminate_velocity (p : Player) : p.eliminate.velocity = Vec2.zero := rfl

theorem eliminate_position (p : Player) : p.eliminate.position = p.position := rfl

theorem resolveCollision_isAlive (p1 p2 : Player) (dm bm : ℝ) :
    (Physics.resolveCollision p1 p2 dm bm).1.isAlive = p1.isAlive ∧
    (Physics.resolveCollision p1 p2 dm bm).2.isAlive = p2.isAlive := by
  simp only [Physics.resolveCollision]
  split_ifs <;> exact ⟨rfl, rfl⟩

theorem listUpd_deadFrozen_of (l : List Player) (iu : ℕ) (f : Player → Player)
    (h : DeadFrozen l)
    (hf : ∀ q : Player, (q.isAlive = false → q.velocity = Vec2.zero) →
      (f q).isAlive = false → (f q).velocity = Vec2.zero) :
    DeadFrozen (listUpd l iu f) := by
  rw [deadFrozen_iff] at h ⊢
  intro i p hget hdead
  rw [listUpd_getElem?] at hget
  split_ifs at hget with hiu
  · rcases hl : l[i]? with _ | q
    · rw [hl] at hget
      cases hget
    · rw [hl] at hget
      simp only [Option.map_some', Option.some.injEq] at hget
      cases hget
      exact hf q (h i q hl) hdead
  · exact h i p hget hdead

theorem set_resolve_deadFrozen (l : List Player) (i j : ℕ) (p1 p2 : Player)
    (dm bm : ℝ) (h : DeadFrozen l)
    (halive : ¬(p1.isAlive = false ∨ p2.isAlive = false)) :
    DeadFrozen ((l.set i (Physics.resolveCollision p1 p2 dm bm).1).set j
      (Physics.resolveCollision p1 p2 dm bm).2) := by
  intro p hp hd
  rcases List.mem_or_eq_of_mem_set hp with hp' | rfl
  · rcases List.mem_or_eq_of_mem_set hp' with hp'' | rfl
    · exact h p hp'' hd
    · rw [(resolveCollision_isAlive p1 p2 _ _).1] at hd
      exact absurd (Or.inl hd) halive
  · rw [(resolveCollision_isAlive p1 p2 _ _).2] at hd
    exact absurd (Or.inr hd) halive

theorem step_deadFrozen (s : GState) (op : GOp) (h : DeadFrozen s.players) :
    DeadFrozen (s.step op).players := by
  cases op with
  | rmUpdate dt oracle =>
    simp only [GState.step]
    exact rmUpdate_deadFrozen s.rm dt s.players oracle h
  | arenaUpdate dt => exact h
  | resetRound =>
    simp only [GState.step]
    intro p hp hdead
    rcases List.mem_map.mp hp with ⟨q, hq, rfl⟩
    simp [Player.reset, Player.setSpawnPosition] at hdead
  | modifierScale sc => exact h
  | modifierShrink sp => exact h
  | handleInput i input dt sm =>
    simp only [GState.step, GState.modifyPlayer]
    refine listUpd_deadFrozen_of s.players i _ h fun q hq hd => ?_
    have ha := handleInput_isAlive q input dt sm
    rw [hd] at ha
    rw [handleInput_dead q input dt sm ha.symm]
    exact hq ha.symm
  | playerUpdate i dt fm =>
    simp only [GState.step, GState.modifyPlayer]
    refine listUpd_deadFrozen_of s.players i _ h fun q hq hd => ?_
    have ha := update_isAlive q dt fm
    rw [hd] at ha
    rw [update_dead q dt fm ha.symm]
    exact hq ha.symm
  | setDistance i =>
    simp only [GState.step, GState.modifyPlayer]
    exact listUpd_deadFrozen_of s.players i _ h fun q hq hd => hq hd
  | centrifugeForce i =>
    simp only [GState.step, GState.modifyPlayer]
    refine listUpd_deadFrozen_of s.players i _ h fun q hq hd => ?_
    by_cases hc : q.isAlive = true ∧ s.arena.centrifugeMode = true
    · rw [if_pos hc] at hd
      have hd' : q.isAlive = false := hd
      cases hd'.symm.trans hc.1
    · rw [if_neg hc] at hd ⊢
      exact hq hd
  | suddenDeathForce i =>
    simp only [GState.step, GState.modifyPlayer]
    refine listUpd_deadFrozen_of s.players i _ h fun q hq hd => ?_
    by_cases hc : q.isAlive = true ∧ s.arena.suddenDeathActive = true ∧
        s.arena.centrifugeMode = false
    · rw [if_pos hc] at hd
      have hd' : q.isAlive = false := hd
      cases hd'.symm.trans hc.1
    · rw [if_neg hc] at hd ⊢
      exact hq hd
  | instabilityForce i =>
    simp only [GState.step, GState.modifyPlayer]
    refine listUpd_deadFrozen_of s.players i _ h fun q hq hd => ?_
    by_cases hc : q.isAlive = true ∧ s.rm.instabilityActive = true
    · rw [if_pos hc] at hd
      have hd' : q.isAlive = false := hd
      cases hd'.symm.trans hc.1
    · rw [if_neg hc] at hd ⊢
      exact hq hd
  | idlePenalty i =>
    simp only [GState.step, GState.modifyPlayer]
    refine listUpd_deadFrozen_of s.players i _ h fun q hq hd => ?_
    by_cases hc : q.isIdle = true ∧ q.isAlive = true
    · rw [if_pos hc] at hd
      have hd' : q.isAlive = false := by
        split_ifs at hd <;> exact hd
      cases hd'.symm.trans hc.2
    · rw [if_neg hc] at hd ⊢
      exact hq hd
  | setAliveCnt => exact h
  | collide i j pushMod bounceMod =>
    simp only [GState.step]
    split_ifs with hij hdm
    · rcases h1 : s.players.get? i with _ | p1 <;>
        rcases h2 : s.players.get? j with _ | p2
      · exact h
      · exact h
      · exact h
      · show DeadFrozen (if p1.isAlive = false ∨ p2.isAlive = false then s
            else if Physics.checkCircleCollision p1 p2 then
              { s with players := (s.players.set i _).set j _ } else s).players
        split_ifs with hdead hcoll
        · exact h
        · exact set_resolve_deadFrozen s.players i j p1 p2 _ _ h hdead
        · exact h
    · rcases h1 : s.players.get? i with _ | p1 <;>
        rcases h2 : s.players.get? j with _ | p2
      · exact h
      · exact h
      · exact h
      · show DeadFrozen (if p1.isAlive = false ∨ p2.isAlive = false then s
            else if Physics.checkCircleCollision p1 p2 then
              { s with players := (s.players.set i _).set j _ } else s).players
        split_ifs with hdead hcoll
        · exact h
        · exact set_resolve_deadFrozen s.players i j p1 p2 _ _ h hdead
        · exact h
    · exact h
  | boundaryCheck i =>
    simp only [GState.step, GState.modifyPlayer]
    refine listUpd_deadFrozen_of s.players i _ h fun q hq hd => ?_
    by_cases hc : Physics.checkArenaBoundary q s.arena
    · rw [if_pos hc] at hd ⊢
      rfl
    · rw [if_neg hc] at hd ⊢
      exact hq hd

theorem run_deadFrozen (s : GState) (ops : List GOp) (h : DeadFrozen s.players) :
    DeadFrozen (s.run ops).players := by
  induction ops generalizing s with
  | nil => exact h
  | cons op ops ih => exact ih (s.step op) (step_deadFrozen s op h)

theorem listUpd_dead_pointwise (l : List Player) (iu : ℕ) (f : Player → Player)
    (hf : ∀ q : Player, q.isAlive = false →
      (f q).isAlive = false ∧ (f q).velocity = q.velocity ∧ (f q).position = q.position)
    (k : ℕ) (p : Player) (hp : l[k]? = some p) (hdead : p.isAlive = false) :
    ∃ q, (listUpd l iu f)[k]? = some q ∧ q.isAlive = false ∧
      q.velocity = p.velocity ∧ q.position = p.position := by
  rw [listUpd_getElem?, hp]
  split_ifs with hk
  · exact ⟨f p, rfl, hf p hdead⟩
  · exact ⟨p, rfl, hdead, rfl, rfl⟩

theorem elimMap_dead_pointwise (l : List Player) (W : Option ℕ)
    (k : ℕ) (p : Player) (hp : l[k]? = some p) (hdead : p.isAlive = false) :
    (l.enum.map fun q =>
      if q.2.isAlive = true ∧ some q.1 ≠ W then q.2.eliminate else q.2)[k]? = some p := by
  rw [enumMap_getElem?, hp]
  simp only [Option.map_some']
  rw [if_neg]
  · rintro ⟨h1, -⟩
    have h1' : p.isAlive = true := h1
    rw [hdead] at h1'
    exact Bool.noConfusion h1'

theorem checkRoundEnd_dead_pointwise (rm : RoundManager) (players : List Player)
    (k : ℕ) (p : Player) (hp : players[k]? = some p) (hdead : p.isAlive = false) :
    ∃ q, (rm.checkRoundEnd players).2.1[k]? = some q ∧ q.isAlive = false ∧
      q.velocity = p.velocity ∧ q.position = p.position := by
  simp only [RoundManager.checkRoundEnd]
  split_ifs with hc hc1
  · rcases hW : players.findIdx? (fun p => p.isAlive) with _ | w <;> rw [hW]
    · exact ⟨p, hp, hdead, rfl, rfl⟩
    · exact listUpd_dead_pointwise players w Player.addWin
        (fun q hq => ⟨hq, rfl, rfl⟩) k p hp hdead
  · exact ⟨p, hp, hdead, rfl, rfl⟩
  · exact ⟨p, hp, hdead, rfl, rfl⟩

theorem forceRoundEnd_dead_pointwise (rm : RoundManager) (players : List Player)
    (k : ℕ) (p : Player) (hp : players[k]? = some p) (hdead : p.isAlive = false) :
    ∃ q, (rm.forceRoundEnd players).2.1[k]? = some q ∧ q.isAlive = false ∧
      q.velocity = p.velocity ∧ q.position = p.position := by
  simp only [RoundManager.forceRoundEnd]
  rcases hW : (if (players.countP fun p => p.isAlive) = 0 then none
      else if (players.countP fun p => p.isAlive) = 1 then
        players.findIdx? fun p => p.isAlive
      else closestAliveIdx players) with _ | w <;>
    simp only [hW] <;> split_ifs with hcnt
  · exact ⟨p, elimMap_dead_pointwise players none k p hp hdead, hdead, rfl, rfl⟩
  · exact ⟨p, hp, hdead, rfl, rfl⟩
  · exact listUpd_dead_pointwise _ w Player.addWin (fun q hq => ⟨hq, rfl, rfl⟩) k p
      (elimMap_dead_pointwise players (some w) k p hp hdead) hdead
  · exact listUpd_dead_pointwise players w Player.addWin
      (fun q hq => ⟨hq, rfl, rfl⟩) k p hp hdead

theorem updatePlaying_dead_pointwise (rm : RoundManager) (deltaTime : ℝ)
    (players : List Player) (k : ℕ) (p : Player)
    (hp : players[k]? = some p) (hdead : p.isAlive = false) :
    ∃ q, (rm.updatePlaying deltaTime players).2.1[k]? = some q ∧ q.isAlive = false ∧
      q.velocity = p.velocity ∧ q.position = p.position := by
  simp only [RoundManager.updatePlaying]
  split_ifs <;> simp only [snd_mk_eq, fst_mk_eq] <;>
    first
      | exact forceRoundEnd_dead_pointwise _ players k p hp hdead
      | exact checkRoundEnd_dead_pointwise _ players k p hp hdead

theorem rmUpdate_dead_pointwise (rm : RoundManager) (deltaTime : ℝ) (players : List Player)
    (oracle : Modifier) (k : ℕ) (p : Player)
    (hp : players[k]? = some p) (hdead : p.isAlive = false) :
    ∃ q, (rm.update deltaTime players oracle).2.1[k]? = some q ∧ q.isAlive = false ∧
      q.velocity = p.velocity ∧ q.position = p.position := by
  cases hs : rm.state
  case waiting => simp only [RoundManager.update, hs]; exact ⟨p, hp, hdead, rfl, rfl⟩
  case matchEnd => simp only [RoundManager.update, hs]; exact ⟨p, hp, hdead, rfl, rfl⟩
  case countdown => simp only [RoundManager.update, hs]; exact ⟨p, hp, hdead, rfl, rfl⟩
  case roundEnd => simp only [RoundManager.update, hs]; exact ⟨p, hp, hdead, rfl, rfl⟩
  case playing =>
    simp only [RoundManager.update, hs]
    exact updatePlaying_dead_pointwise rm deltaTime players k p hp hdead

theorem step_dead_pointwise (s : GState) (op : GOp) (hop : op.isReset = false)
    (k : ℕ) (p : Player) (hp : s.players[k]? = some p) (hdead : p.isAlive = false) :
    ∃ q, (s.step op).players[k]? = some q ∧ q.isAlive = false ∧
      q.velocity = p.velocity ∧ q.position = p.position := by
  cases op with
  | rmUpdate dt oracle =>
    exact rmUpdate_dead_pointwise s.rm dt s.players oracle k p hp hdead
  | arenaUpdate dt => exact ⟨p, hp, hdead, rfl, rfl⟩
  | resetRound => exact Bool.noConfusion hop
  | modifierScale sc => exact ⟨p, hp, hdead, rfl, rfl⟩
  | modifierShrink sp => exact ⟨p, hp, hdead, rfl, rfl⟩
  | handleInput i input dt sm =>
    simp only [GState.step, GState.modifyPlayer]
    refine listUpd_dead_pointwise s.players i _ (fun q hq => ?_) k p hp hdead
    rw [handleInput_dead q input dt sm hq]
    exact ⟨hq, rfl, rfl⟩
  | playerUpdate i dt fm =>
    simp only [GState.step, GState.modifyPlayer]
    refine listUpd_dead_pointwise s.players i _ (fun q hq => ?_) k p hp hdead
    rw [update_dead q dt fm hq]
    exact ⟨hq, rfl, rfl⟩
  | setDistance i =>
    simp only [GState.step, GState.modifyPlayer]
    exact listUpd_dead_pointwise s.players i
      (fun q => { q with distanceFromCenter := some (Real.sqrt
        ((q.position.x - s.arena.centerX) ^ 2 + (q.position.y - s.arena.centerY) ^ 2)) })
      (fun q hq => ⟨hq, rfl, rfl⟩) k p hp hdead
  | centrifugeForce i =>
    simp only [GState.step, GState.modifyPlayer]
    refine listUpd_dead_pointwise s.players i _ (fun q hq => ?_) k p hp hdead
    rw [if_neg]
    · exact ⟨hq, rfl, rfl⟩
    · rintro ⟨h1, -⟩
      rw [hq] at h1
      exact Bool.noConfusion h1
  | suddenDeathForce i =>
    simp only [GState.step, GState.modifyPlayer]
    refine listUpd_dead_pointwise s.players i _ (fun q hq => ?_) k p hp hdead
    rw [if_neg]
    · exact ⟨hq, rfl, rfl⟩
    · rintro ⟨h1, -⟩
      rw [hq] at h1
      exact Bool.noConfusion h1
  | instabilityForce i =>
    simp only [GState.step, GState.modifyPlayer]
    refine listUpd_dead_pointwise s.players i _ (fun q hq => ?_) k p hp hdead
    rw [if_neg]
    · exact ⟨hq, rfl, rfl⟩
    · rintro ⟨h1, -⟩
      rw [hq] at h1
      exact Bool.noConfusion h1
  | idlePenalty i =>
    simp only [GState.step, GState.modifyPlayer]
    refine listUpd_dead_pointwise s.players i _ (fun q hq => ?_) k p hp hdead
    rw [if_neg]
    · exact ⟨hq, rfl, rfl⟩
    · rintro ⟨-, h2⟩
      rw [hq] at h2
      exact Bool.noConfusion h2
  | setAliveCnt => exact ⟨p, hp, hdead, rfl, rfl⟩
  | collide i j pushMod bounceMod =>
    simp only [GState.step]
    split_ifs with hij hdm
    · rcases h1 : s.players.get? i with _ | p1 <;>
        rcases h2 : s.players.get? j with _ | p2
      · exact ⟨p, hp, hdead, rfl, rfl⟩
      · exact ⟨p, hp, hdead, rfl, rfl⟩
      · exact ⟨p, hp, hdead, rfl, rfl⟩
      · show ∃ q, ((if p1.isAlive = false ∨ p2.isAlive = false then s
            else if Physics.checkCircleCollision p1 p2 then
              { s with players := (s.players.set i _).set j _ } else s).players)[k]? =
              some q ∧ q.isAlive = false ∧ q.velocity = p.velocity ∧ q.position = p.position
        split_ifs with hdd hcoll
        · exact ⟨p, hp, hdead, rfl, rfl⟩
        · have hki : k ≠ i := by
            intro he
            subst he
            rw [List.get?_eq_getElem?, hp] at h1
            injection h1 with h1
            subst h1
            exact hdd (Or.inl hdead)
          have hkj : k ≠ j := by
            intro he
            subst he
            rw [List.get?_eq_getElem?, hp] at h2
            injection h2 with h2
            subst h2
            exact hdd (Or.inr hdead)
          refine ⟨p, ?_, hdead, rfl, rfl⟩
          rw [List.getElem?_set_ne (Ne.symm hkj), List.getElem?_set_ne (Ne.symm hki)]
          exact hp
        · exact ⟨p, hp, hdead, rfl, rfl⟩
    · rcases h1 : s.players.get? i with _ | p1 <;>
        rcases h2 : s.players.get? j with _ | p2
      · exact ⟨p, hp, hdead, rfl, rfl⟩
      · exact ⟨p, hp, hdead, rfl, rfl⟩
      · exact ⟨p, hp, hdead, rfl, rfl⟩
      · show ∃ q, ((if p1.isAlive = false ∨ p2.isAlive = false then s
            else if Physics.checkCircleCollision p1 p2 then
              { s with players := (s.players.set i _).set j _ } else s).players)[k]? =
              some q ∧ q.isAlive = false ∧ q.velocity = p.velocity ∧ q.position = p.position
        split_ifs with hdd hcoll
        · exact ⟨p, hp, hdead, rfl, rfl⟩
        · have hki : k ≠ i := by
            intro he
            subst he
            rw [List.get?_eq_getElem?, hp] at h1
            injection h1 with h1
            subst h1
            exact hdd (Or.inl hdead)
          have hkj : k ≠ j := by
            intro he
            subst he
            rw [List.get?_eq_getElem?, hp] at h2
            injection h2 with h2
            subst h2
            exact hdd (Or.inr hdead)
          refine ⟨p, ?_, hdead, rfl, rfl⟩
          rw [List.getElem?_set_ne (Ne.symm hkj), List.getElem?_set_ne (Ne.symm hki)]
          exact hp
        · exact ⟨p, hp, hdead, rfl, rfl⟩
    · exact ⟨p, hp, hdead, rfl, rfl⟩
  | boundaryCheck i =>
    simp only [GState.step, GState.modifyPlayer]
    refine listUpd_dead_pointwise s.players i _ (fun q hq => ?_) k p hp hdead
    rw [if_neg]
    · exact ⟨hq, rfl, rfl⟩
    · rintro ⟨h1, -⟩
      rw [hq] at h1
      exact Bool.noConfusion h1

theorem run_dead_pointwise (s : GState) (ops : List GOp)
    (hops : ∀ op ∈ ops, op.isReset = false)
    (k : ℕ) (p : Player) (hp : s.players[k]? = some p) (hdead : p.isAlive = false) :
    ∃ q, (s.run ops).players[k]? = some q ∧ q.isAlive = false ∧
      q.velocity = p.velocity ∧ q.position = p.position := by
  induction ops generalizing s p with
  | nil => exact ⟨p, hp, hdead, rfl, rfl⟩
  | cons op ops ih =>
    obtain ⟨q1, hq1, hq1d, hq1v, hq1p⟩ :=
      step_dead_pointwise s op (hops op (List.mem_cons_self op ops)) k p hp hdead
    obtain ⟨q, hq, hqd, hqv, hqp⟩ :=
      ih (s.step op) (fun o ho => hops o (List.mem_cons_of_mem op ho)) q1 hq1 hq1d
    exact ⟨q, hq, hqd, hqv.trans hq1v, hqp.trans hq1p⟩

/-- **C9**: starting from any game state in which every dead player already
has zero velocity (as after `eliminate()`, which zeroes the velocity), after
any sequence of game operations every dead player still has velocity exactly
`(0, 0)`; and as long as the sequence contains no between-rounds reset, no
operation (input handling, movement update, collision resolution,
environmental forces, boundary checks, round-manager updates) modifies a dead
player's velocity or position: the player at a dead index keeps its position,
stays dead, and keeps velocity `(0, 0)`. -/
theorem c9_dead_players_frozen (s : GState) (ops : List GOp)
    (hinv : DeadFrozen s.players) (hops : ∀ op ∈ ops, op.isReset = false) :
    DeadFrozen (s.run ops).players ∧
    (∀ p : Player, p.eliminate.velocity = Vec2.zero) ∧
    ∀ (k : ℕ) (p : Player), s.players[k]? = some p → p.isAlive = false →
      ∃ q, (s.run ops).players[k]? = some q ∧ q.isAlive = false ∧
        q.velocity = Vec2.zero ∧ q.position = p.position := by
  refine ⟨run_deadFrozen s ops hinv, fun p => rfl, fun k p hp hdead => ?_⟩
  obtain ⟨q, hq, hqd, hqv, hqp⟩ := run_dead_pointwise s ops hops k p hp hdead
  exact ⟨q, hq, hqd, hqv.trans (hinv p (List.mem_iff_getElem?.mpr ⟨k, hp⟩) hdead), hqp⟩

theorem c9_dead_players_frozen_witness :
    DeadFrozen (GState.mk RoundManager.init (Arena.init 1000 700)
        [Player.init 0 100 100, (Player.init 1 200 200).eliminate]).players ∧
    (∀ op ∈ [GOp.handleInput 1 ⟨⟨1, 0⟩, true⟩ 16 1, GOp.playerUpdate 1 16 1,
        GOp.boundaryCheck 1], GOp.isReset op = false) ∧
    (DeadFrozen ((GState.mk RoundManager.init (Arena.init 1000 700)
        [Player.init 0 100 100, (Player.init 1 200 200).eliminate]).run
        [GOp.handleInput 1 ⟨⟨1, 0⟩, true⟩ 16 1, GOp.playerUpdate 1 16 1,
          GOp.boundaryCheck 1]).players ∧
      (∀ p : Player, p.eliminate.velocity = Vec2.zero) ∧
      ∀ (k : ℕ) (p : Player),
        (GState.mk RoundManager.init (Arena.init 1000 700)
          [Player.init 0 100 100, (Player.init 1 200 200).eliminate]).players[k]? =
            some p → p.isAlive = false →
          ∃ q, ((GState.mk RoundManager.init (Arena.init 1000 700)
              [Player.init 0 100 100, (Player.init 1 200 200).eliminate]).run
              [GOp.handleInput 1 ⟨⟨1, 0⟩, true⟩ 16 1, GOp.playerUpdate 1 16 1,
                GOp.boundaryCheck 1]).players[k]? = some q ∧ q.isAlive = false ∧
            q.velocity = Vec2.zero ∧ q.position = p.position) := by
  have h1 : DeadFrozen (GState.mk RoundManager.init (Arena.init 1000 700)
      [Player.init 0 100 100, (Player.init 1 200 200).eliminate]).players := by
    intro p hp hdead
    rcases List.mem_cons.mp hp with rfl | hp
    · simp [Player.init] at hdead
    · rcases List.mem_cons.mp hp with rfl | hp
      · rfl
      · cases hp
  have h2 : ∀ op ∈ [GOp.handleInput 1 ⟨⟨1, 0⟩, true⟩ (16 : ℝ) 1,
      GOp.playerUpdate 1 16 1, GOp.boundaryCheck 1], GOp.isReset op = false := by
    intro op hop
    rcases List.mem_cons.mp hop with rfl | hop
    · rfl
    · rcases List.mem_cons.mp hop with rfl | hop
      · rfl
      · rcases List.mem_cons.mp hop with rfl | hop
        · rfl
        · cases hop
  exact ⟨h1, h2, c9_dead_players_frozen _ _ h1 h2⟩

theorem uDM_state (rm : RoundManager) : rm.updateDamageMultiplier.state = rm.state := by
  simp only [RoundManager.updateDamageMultiplier]
  split_ifs <;> rfl

theorem uDM_currentRound (rm : RoundManager) :
    rm.updateDamageMultiplier.currentRound = rm.currentRound := by
  simp only [RoundManager.updateDamageMultiplier]
  split_ifs <;> rfl

theorem uDM_roundTime (rm : RoundManager) :
    rm.updateDamageMultiplier.roundTime = rm.roundTime := by
  simp only [RoundManager.updateDamageMultiplier]
  split_ifs <;> rfl

theorem uDM_instabilityActive (rm : RoundManager) :
    rm.updateDamageMultiplier.instabilityActive = rm.instabilityActive := by
  simp only [RoundManager.updateDamageMultiplier]
  split_ifs <;> rfl

theorem uDM_finalCountdownActive (rm : RoundManager) :
    rm.updateDamageMultiplier.finalCountdownActive = rm.finalCountdownActive := by
  simp only [RoundManager.updateDamageMultiplier]
  split_ifs <;> rfl

theorem uDM_finalCountdownTime (rm : RoundManager) :
    rm.updateDamageMultiplier.finalCountdownTime = rm.finalCountdownTime := by
  simp only [RoundManager.updateDamageMultiplier]
  split_ifs <;> rfl

theorem checkRoundEnd_noop (rm : RoundManager) (players : List Player)
    (h2 : 2 ≤ players.countP fun p => p.isAlive) :
    rm.checkRoundEnd players = (rm, players, []) := by
  simp only [RoundManager.checkRoundEnd]
  rw [if_neg]
  omega

theorem forced_package (rmX : RoundManager) (players : List Player)
    (e1 e2 e3 : List REvent) (c : ℕ) (hc : rmX.currentRound = c)
    (h2 : 2 ≤ players.countP fun p => p.isAlive) :
    (rmX.forceRoundEnd players).1.state = RState.roundEnd ∧
    ∃ w pw, players[w]? = some pw ∧ pw.isAlive = true ∧
      (∀ (i : ℕ) (q : Player), players[i]? = some q → q.isAlive = true →
        effDist pw ≤ effDist q) ∧
      (∀ (i : ℕ) (q : Player), players[i]? = some q → q.isAlive = true → i < w →
        effDist pw < effDist q) ∧
      (rmX.forceRoundEnd players).1.roundWinner = some w ∧
      REvent.roundEnd (some w) c Reason.timeout ∈
        e1 ++ e2 ++ e3 ++ (rmX.forceRoundEnd players).2.2 ∧
      ∀ (i : ℕ) (q : Player), (rmX.forceRoundEnd players).2.1[i]? = some q →
        (q.isAlive = true ↔ i = w) := by
  obtain ⟨w, pw, hget, ha, hmin, hstr, hrs, hrw, hevs, hiff⟩ :=
    forceRoundEnd_spec rmX players h2
  subst hc
  refine ⟨hrs, w, pw, hget, ha, hmin, hstr, hrw, ?_, hiff⟩
  refine List.mem_append_right (e1 ++ e2 ++ e3) ?_
  rw [hevs]
  exact List.mem_cons_self _ _

theorem playing_tick (rm0 rm : RoundManager) (players : List Player) (R dt : ℝ)
    (hinv : PlayInv rm0 rm R) (hdt : 0 ≤ dt)
    (h2 : 2 ≤ players.countP fun p => p.isAlive) :
    (PlayInv rm0 (rm.update dt players Modifier.NONE).1 (R + dt) ∧
      (rm.update dt players Modifier.NONE).2.1 = players) ∨
    ForcedEnd rm players dt := by
  obtain ⟨hst, hcr, hrt, hfcF, hfcT⟩ := hinv
  simp only [ForcedEnd, RoundManager.update, hst, RoundManager.updatePlaying,
    checkRoundEnd_noop _ _ h2, uDM_state, uDM_currentRound, uDM_roundTime,
    uDM_instabilityActive, uDM_finalCountdownActive, uDM_finalCountdownTime,
    snd_mk_eq, fst_mk_eq, hrt]
  split_ifs with hIL hFL hAC hEN hAC2 hEN2 hFL2 hAC3 hEN3 hAC4 hEN4 <;>
    (try simp only [uDM_state, uDM_currentRound, uDM_roundTime, uDM_instabilityActive,
      uDM_finalCountdownActive, uDM_finalCountdownTime] at *)
  · refine Or.inr ?_
    try simp only [snd_mk_eq, fst_mk_eq]
    apply forced_package <;> first | rfl | exact h2
  · have hFL' : rm.finalCountdownActive = false ∧
        R + dt ≥ CONFIG.ESCALATION_FINAL_COUNTDOWN_START := hFL
    have hEN' : ¬(CONFIG.ESCALATION_FINAL_COUNTDOWN_DURATION - dt ≤ 0) := hEN
    have hR := hfcF hFL'.1
    refine Or.inl ⟨?_, by first | trivial | rfl⟩
    unfold PlayInv
    refine ⟨?_, hcr, rfl, fun hh => ?_, fun hh => ⟨?_, ?_⟩⟩
    · first | rfl | exact hst
    · exact Bool.noConfusion (hh : true = false)
    · show (0 : ℝ) < CONFIG.ESCALATION_FINAL_COUNTDOWN_DURATION - dt
      linarith
    · show CONFIG.ESCALATION_FINAL_COUNTDOWN_DURATION - dt ≤
        CONFIG.ESCALATION_FINAL_COUNTDOWN_START +
          CONFIG.ESCALATION_FINAL_COUNTDOWN_DURATION - (R + dt)
      linarith
  · first | exact absurd rfl hAC | exact absurd trivial hAC
  · refine Or.inr ?_
    try simp only [snd_mk_eq, fst_mk_eq]
    apply forced_package <;> first | rfl | exact h2
  · have hAC' : rm.finalCountdownActive = true := hAC2
    have hEN' : ¬(rm.finalCountdownTime - dt ≤ 0) := hEN2
    obtain ⟨hpos, hub⟩ := hfcT hAC'
    refine Or.inl ⟨?_, by first | trivial | rfl⟩
    unfold PlayInv
    refine ⟨?_, hcr, rfl, fun hh => ?_, fun hh => ⟨?_, ?_⟩⟩
    · first | rfl | exact hst
    · have hh' : rm.finalCountdownActive = false := hh
      rw [hAC'] at hh'
      exact Bool.noConfusion hh'
    · show (0 : ℝ) < rm.finalCountdownTime - dt
      linarith
    · show rm.finalCountdownTime - dt ≤ CONFIG.ESCALATION_FINAL_COUNTDOWN_START +
        CONFIG.ESCALATION_FINAL_COUNTDOWN_DURATION - (R + dt)
      linarith
  · have hAC' : ¬(rm.finalCountdownActive = true) := hAC2
    have hFL' : ¬(rm.finalCountdownActive = false ∧
        R + dt ≥ CONFIG.ESCALATION_FINAL_COUNTDOWN_START) := hFL
    have hA0 : rm.finalCountdownActive = false := by
      cases hq : rm.finalCountdownActive
      · rfl
      · exact absurd hq hAC'
    refine Or.inl ⟨?_, by first | trivial | rfl⟩
    unfold PlayInv
    try simp only [uDM_state, uDM_currentRound, uDM_roundTime,
      uDM_finalCountdownActive, uDM_finalCountdownTime]
    refine ⟨?_, ?_, ?_, fun hh => ?_, fun hh => ?_⟩
    · first | rfl | trivial | exact hst
    · first | rfl | trivial | exact hcr
    · first | rfl | trivial
    · have hnb : ¬(R + dt ≥ CONFIG.ESCALATION_FINAL_COUNTDOWN_START) :=
        fun hb => hFL' ⟨hA0, hb⟩
      exact lt_of_not_ge hnb
    · have hh' : rm.finalCountdownActive = true := hh
      rw [hA0] at hh'
      exact Bool.noConfusion hh'
  · refine Or.inr ?_
    try simp only [snd_mk_eq, fst_mk_eq]
    apply forced_package <;> first | rfl | exact h2
  · have hFL' : rm.finalCountdownActive = false ∧
        R + dt ≥ CONFIG.ESCALATION_FINAL_COUNTDOWN_START := hFL2
    have hEN' : ¬(CONFIG.ESCALATION_FINAL_COUNTDOWN_DURATION - dt ≤ 0) := hEN3
    have hR := hfcF hFL'.1
    refine Or.inl ⟨?_, by first | trivial | rfl⟩
    unfold PlayInv
    refine ⟨?_, hcr, rfl, fun hh => ?_, fun hh => ⟨?_, ?_⟩⟩
    · first | rfl | exact hst
    · exact Bool.noConfusion (hh : true = false)
    · show (0 : ℝ) < CONFIG.ESCALATION_FINAL_COUNTDOWN_DURATION - dt
      linarith
    · show CONFIG.ESCALATION_FINAL_COUNTDOWN_DURATION - dt ≤
        CONFIG.ESCALATION_FINAL_COUNTDOWN_START +
          CONFIG.ESCALATION_FINAL_COUNTDOWN_DURATION - (R + dt)
      linarith
  · first | exact absurd rfl hAC3 | exact absurd trivial hAC3
  · refine Or.inr ?_
    try simp only [snd_mk_eq, fst_mk_eq]
    apply forced_package <;> first | rfl | exact h2
  · have hAC' : rm.finalCountdownActive = true := hAC4
    have hEN' : ¬(rm.finalCountdownTime - dt ≤ 0) := hEN4
    obtain ⟨hpos, hub⟩ := hfcT hAC'
    refine Or.inl ⟨?_, by first | trivial | rfl⟩
    unfold PlayInv
    refine ⟨?_, hcr, rfl, fun hh => ?_, fun hh => ⟨?_, ?_⟩⟩
    · first | rfl | exact hst
    · have hh' : rm.finalCountdownActive = false := hh
      rw [hAC'] at hh'
      exact Bool.noConfusion hh'
    · show (0 : ℝ) < rm.finalCountdownTime - dt
      linarith
    · show rm.finalCountdownTime - dt ≤ CONFIG.ESCALATION_FINAL_COUNTDOWN_START +
        CONFIG.ESCALATION_FINAL_COUNTDOWN_DURATION - (R + dt)
      linarith
  · have hAC' : ¬(rm.finalCountdownActive = true) := hAC4
    have hFL' : ¬(rm.finalCountdownActive = false ∧
        R + dt ≥ CONFIG.ESCALATION_FINAL_COUNTDOWN_START) := hFL2
    have hA0 : rm.finalCountdownActive = false := by
      cases hq : rm.finalCountdownActive
      · rfl
      · exact absurd hq hAC'
    refine Or.inl ⟨?_, by first | trivial | rfl⟩
    unfold PlayInv
    try simp only [uDM_state, uDM_currentRound, uDM_roundTime,
      uDM_finalCountdownActive, uDM_finalCountdownTime]
    refine ⟨?_, ?_, ?_, fun hh => ?_, fun hh => ?_⟩
    · first | rfl | trivial | exact hst
    · first | rfl | trivial | exact hcr
    · first | rfl | trivial
    · have hnb : ¬(R + dt ≥ CONFIG.ESCALATION_FINAL_COUNTDOWN_START) :=
        fun hb => hFL' ⟨hA0, hb⟩
      exact lt_of_not_ge hnb
    · have hh' : rm.finalCountdownActive = true := hh
      rw [hA0] at hh'
      exact Bool.noConfusion hh'

theorem playing_run (rm0 : RoundManager) (players0 : List Player)
    (h2 : 2 ≤ players0.countP fun p => p.isAlive) (dts : List ℝ) :
    ∀ (rm : RoundManager) (R : ℝ), PlayInv rm0 rm R → (∀ dt ∈ dts, 0 ≤ dt) →
      CONFIG.ESCALATION_FINAL_COUNTDOWN_START +
        CONFIG.ESCALATION_FINAL_COUNTDOWN_DURATION < R + dts.sum →
      ∃ j, ∃ hj : j < dts.length,
        (rmRunFrom (rm, players0) (dts.take j)).1.state = RState.playing ∧
        (rmRunFrom (rm, players0) (dts.take j)).2 = players0 ∧
        (rmRunFrom (rm, players0) (dts.take j)).1.currentRound = rm0.currentRound ∧
        ForcedEnd (rmRunFrom (rm, players0) (dts.take j)).1 players0
          (dts.get ⟨j, hj⟩) := by
  induction dts with
  | nil =>
    intro rm R hinv hnn hsum
    exfalso
    obtain ⟨hst, hcr, hrt, hfcF, hfcT⟩ := hinv
    simp only [List.sum_nil] at hsum
    have hD : (0 : ℝ) < CONFIG.ESCALATION_FINAL_COUNTDOWN_DURATION := by
      norm_num [CONFIG.ESCALATION_FINAL_COUNTDOWN_DURATION]
    cases hq : rm.finalCountdownActive
    · have hlt := hfcF hq
      linarith
    · obtain ⟨hpos, hub⟩ := hfcT hq
      linarith
  | cons dt dts ih =>
    intro rm R hinv hnn hsum
    have hdt : 0 ≤ dt := hnn dt (List.mem_cons_self dt dts)
    rcases playing_tick rm0 rm players0 R dt hinv hdt h2 with ⟨hinv2, hpl⟩ | hend
    · obtain ⟨j, hj, hA, hB, hC, hD⟩ :=
        ih (rm.update dt players0 Modifier.NONE).1 (R + dt) hinv2
          (fun d hd => hnn d (List.mem_cons_of_mem dt hd))
          (by rw [List.sum_cons] at hsum; linarith)
      have hstep : rmRunFrom (rm, players0) ((dt :: dts).take (j + 1))
          = rmRunFrom ((rm.update dt players0 Modifier.NONE).1, players0) (dts.take j) := by
        show rmRunFrom ((rm.update dt players0 Modifier.NONE).1,
          (rm.update dt players0 Modifier.NONE).2.1) (dts.take j) = _
        rw [hpl]
      refine ⟨j + 1, Nat.succ_lt_succ hj, ?_, ?_, ?_, ?_⟩
      · rw [hstep]
        exact hA
      · rw [hstep]
        exact hB
      · rw [hstep]
        exact hC
      · rw [hstep]
        exact hD
    · obtain ⟨hst, hcr, hrt, hfcF, hfcT⟩ := hinv
      refine ⟨0, Nat.succ_pos dts.length, ?_, rfl, ?_, ?_⟩
      · exact hst
      · exact hcr
      · exact hend

/-- **C1**: starting from the `playing` state at `roundTime = 0` (final
countdown not yet latched) with at least 2 living actors, advancing the
round manager tick by tick with no collisions and no boundary eliminations
(`rmRunFrom`) by nonnegative deltas whose total exceeds
`finalCountdownStart + finalCountdownDuration` always ends the round: at
some tick the state is still `playing` and the players untouched, and that
tick's update force-ends the round (`ForcedEnd`): the state becomes
`roundEnd`, only the living actor nearest the arena center (earliest on
ties) survives as the round winner, and the round-end event fires with
reason `timeout`. -/
theorem c1_no_stalemate (rm0 : RoundManager) (players0 : List Player) (dts : List ℝ)
    (hstate : rm0.state = RState.playing) (hrt : rm0.roundTime = 0)
    (hfc : rm0.finalCountdownActive = false)
    (h2 : 2 ≤ players0.countP fun p => p.isAlive)
    (hnn : ∀ dt ∈ dts, 0 ≤ dt)
    (hsum : CONFIG.ESCALATION_FINAL_COUNTDOWN_START +
      CONFIG.ESCALATION_FINAL_COUNTDOWN_DURATION < dts.sum) :
    ∃ j, ∃ hj : j < dts.length,
      (rmRunFrom (rm0, players0) (dts.take j)).1.state = RState.playing ∧
      (rmRunFrom (rm0, players0) (dts.take j)).2 = players0 ∧
      (rmRunFrom (rm0, players0) (dts.take j)).1.currentRound = rm0.currentRound ∧
      ForcedEnd (rmRunFrom (rm0, players0) (dts.take j)).1 players0
        (dts.get ⟨j, hj⟩) := by
  have hinv : PlayInv rm0 rm0 0 := by
    unfold PlayInv
    refine ⟨hstate, rfl, hrt, fun _ => ?_, fun hq => ?_⟩
    · norm_num [CONFIG.ESCALATION_FINAL_COUNTDOWN_START]
    · rw [hfc] at hq
      exact Bool.noConfusion hq
  exact playing_run rm0 players0 h2 dts rm0 0 hinv hnn (by linarith)

theorem c1_no_stalemate_witness :
    ({ RoundManager.init with state := RState.playing } : RoundManager).state
        = RState.playing ∧
    ({ RoundManager.init with state := RState.playing } : RoundManager).roundTime = 0 ∧
    ({ RoundManager.init with state := RState.playing } : RoundManager).finalCountdownActive
        = false ∧
    2 ≤ [Player.init 0 100 100, Player.init 1 200 200].countP (fun p => p.isAlive) ∧
    (∀ dt ∈ [(26000 : ℝ)], 0 ≤ dt) ∧
    (CONFIG.ESCALATION_FINAL_COUNTDOWN_START +
      CONFIG.ESCALATION_FINAL_COUNTDOWN_DURATION < [(26000 : ℝ)].sum) ∧
    ∃ j, ∃ hj : j < [(26000 : ℝ)].length,
      (rmRunFrom ({ RoundManager.init with state := RState.playing },
          [Player.init 0 100 100, Player.init 1 200 200]) ([(26000 : ℝ)].take j)).1.state
          = RState.playing ∧
      (rmRunFrom ({ RoundManager.init with state := RState.playing },
          [Player.init 0 100 100, Player.init 1 200 200]) ([(26000 : ℝ)].take j)).2
          = [Player.init 0 100 100, Player.init 1 200 200] ∧
      (rmRunFrom ({ RoundManager.init with state := RState.playing },
          [Player.init 0 100 100, Player.init 1 200 200]) ([(26000 : ℝ)].take j)).1.currentRound
          = ({ RoundManager.init with state := RState.playing } : RoundManager).currentRound ∧
      ForcedEnd (rmRunFrom ({ RoundManager.init with state := RState.playing },
          [Player.init 0 100 100, Player.init 1 200 200]) ([(26000 : ℝ)].take j)).1
        [Player.init 0 100 100, Player.init 1 200 200] ([(26000 : ℝ)].get ⟨j, hj⟩) := by
  have e1 : ({ RoundManager.init with state := RState.playing } : RoundManager).state
      = RState.playing := rfl
  have e2 : ({ RoundManager.init with state := RState.playing } : RoundManager).roundTime
      = 0 := rfl
  have e3 : ({ RoundManager.init with
      state := RState.playing } : RoundManager).finalCountdownActive = false := rfl
  have e4 : 2 ≤ [Player.init 0 100 100, Player.init 1 200 200].countP
      (fun p => p.isAlive) := by decide
  have e5 : ∀ dt ∈ [(26000 : ℝ)], 0 ≤ dt := by
    intro dt hdt
    rcases List.mem_cons.mp hdt with rfl | h
    · norm_num
    · cases h
  have e6 : CONFIG.ESCALATION_FINAL_COUNTDOWN_START +
      CONFIG.ESCALATION_FINAL_COUNTDOWN_DURATION < [(26000 : ℝ)].sum := by
    norm_num [List.sum_cons, List.sum_nil, CONFIG.ESCALATION_FINAL_COUNTDOWN_START,
      CONFIG.ESCALATION_FINAL_COUNTDOWN_DURATION]
  exact ⟨e1, e2, e3, e4, e5, e6, c1_no_stalemate _ _ _ e1 e2 e3 e4 e5 e6⟩

end Brawler
